import Mathlib

/-!
Shallow embedding of the PRONAS/PCD project-generation engine
(`ai-service-enhanced.py` and `backend/ai/engine.py`) and proofs about it.

Money amounts and fractions are modelled as rationals (`ℚ`); the Python
sources use floats, and none of the properties proved here depends on
float rounding.  Category labels, role labels and area codes are kept
as the `String` keys the sources use.

Namespace `Enhanced` embeds `ai-service-enhanced.py` (class
`PronasAIEngine` of the enhanced service); namespace `Engine` embeds
`backend/ai/engine.py`.
-/

namespace Enhanced

/-- A budget line item, mirroring `ProjectBudgetCreate` of `schemas.py`
(the optional fields the generator never sets are omitted). -/
structure BudgetItem where
  category : String
  subcategory : Option String := none
  description : String
  unit : String
  quantity : ℚ
  unit_value : ℚ
  total_value : ℚ
  deriving Repr, DecidableEq

/-- The `typical_budget_distribution` of area QSS
(`ai-service-enhanced.py`, `_load_priority_areas`). -/
def qssDist : List (String × ℚ) :=
  [("reformas", 60/100), ("material_permanente", 25/100),
   ("despesas_administrativas", 10/100), ("auditoria", 5/100)]

/-- The `typical_budget_distribution` of area RPD. -/
def rpdDist : List (String × ℚ) :=
  [("pessoal", 50/100), ("material_consumo", 20/100), ("material_permanente", 15/100),
   ("despesas_administrativas", 10/100), ("auditoria", 5/100)]

/-- The `typical_budget_distribution` of area DDP. -/
def ddpDist : List (String × ℚ) :=
  [("pessoal", 45/100), ("material_consumo", 25/100), ("material_permanente", 15/100),
   ("despesas_administrativas", 10/100), ("auditoria", 5/100)]

/-- The `typical_budget_distribution` of area EPD. -/
def epdDist : List (String × ℚ) :=
  [("pessoal", 55/100), ("material_consumo", 20/100), ("material_permanente", 10/100),
   ("despesas_administrativas", 10/100), ("auditoria", 5/100)]

/-- The `typical_budget_distribution` of area ITR. -/
def itrDist : List (String × ℚ) :=
  [("pessoal", 40/100), ("material_consumo", 25/100), ("material_permanente", 20/100),
   ("despesas_administrativas", 10/100), ("auditoria", 5/100)]

/-- The `typical_budget_distribution` of area APE. -/
def apeDist : List (String × ℚ) :=
  [("pessoal", 35/100), ("material_consumo", 25/100), ("material_permanente", 25/100),
   ("despesas_administrativas", 10/100), ("auditoria", 5/100)]

/-- The `typical_budget_distribution` of area TAA. -/
def taaDist : List (String × ℚ) :=
  [("pessoal", 40/100), ("material_consumo", 30/100), ("material_permanente", 15/100),
   ("despesas_administrativas", 10/100), ("auditoria", 5/100)]

/-- The `typical_budget_distribution` of area APC. -/
def apcDist : List (String × ℚ) :=
  [("pessoal", 40/100), ("material_consumo", 30/100), ("material_permanente", 15/100),
   ("despesas_administrativas", 10/100), ("auditoria", 5/100)]

/-- The fallback distribution used by `_generate_project_budget` when an
area profile carries no `typical_budget_distribution` key. -/
def defaultDist : List (String × ℚ) :=
  [("pessoal", 45/100), ("material_consumo", 20/100), ("material_permanente", 15/100),
   ("despesas_administrativas", 10/100), ("reformas", 5/100), ("auditoria", 5/100)]

/-- The closed 8-value set of priority-area codes (keys of
`self.priority_areas` in both sources). -/
def priorityAreaCodes : List String :=
  ["QSS", "RPD", "DDP", "EPD", "ITR", "APE", "TAA", "APC"]

/-- The distribution map of an area profile resolved per area code
(the dictionary access with default in `_generate_project_budget`);
codes outside the 8-value set fall to the default map only to make the
function total (the orchestrator rejects them first). -/
def enhancedDist : String → List (String × ℚ)
  | "QSS" => qssDist
  | "RPD" => rpdDist
  | "DDP" => ddpDist
  | "EPD" => epdDist
  | "ITR" => itrDist
  | "APE" => apeDist
  | "TAA" => taaDist
  | "APC" => apcDist
  | _ => defaultDist

/-- The audit-injection block of `_generate_project_budget`
(`ai-service-enhanced.py` lines 564-571): if `auditoria` is absent it is
inserted at 0.05 (Python dicts append new keys at the end) and every
other fraction is multiplied by `0.95 / (total - 0.05)` where `total`
is the sum of values after the insertion. -/
def normalizeDistribution (dist : List (String × ℚ)) : List (String × ℚ) :=
  if dist.any (fun kv => kv.1 == "auditoria") then dist
  else
    let dist1 := dist ++ [("auditoria", 5/100)]
    let total := (dist1.map Prod.snd).sum
    dist1.map (fun kv =>
      if kv.1 == "auditoria" then kv
      else (kv.1, kv.2 * (95/100) / (total - 5/100)))

/-- Line items generated for one category of the distribution map
(the per-category branches of `_generate_project_budget`). -/
def categoryItems (budget_total : ℚ) (category : String) (percentage : ℚ) :
    List BudgetItem :=
  let category_total := budget_total * percentage
  match category with
  | "pessoal" =>
      let coord : BudgetItem :=
        { category := "pessoal", subcategory := some "Coordenação",
          description := "Coordenador Geral - 20h/semanais", unit := "mês",
          quantity := 24, unit_value := 10000, total_value := 240000 }
      let remaining := category_total - 240000
      if remaining > 0 then
        [coord,
         { category := "pessoal", subcategory := some "Equipe Técnica",
           description := "Profissionais especializados", unit := "mês",
           quantity := 24, unit_value := remaining / 24, total_value := remaining }]
      else [coord]
  | "material_consumo" =>
      [{ category := "material_consumo",
         description := "Material terapêutico e de consumo", unit := "mês",
         quantity := 24, unit_value := category_total / 24, total_value := category_total }]
  | "material_permanente" =>
      [{ category := "material_permanente",
         description := "Equipamentos e materiais permanentes", unit := "conjunto",
         quantity := 1, unit_value := category_total, total_value := category_total }]
  | "despesas_administrativas" =>
      [{ category := "despesas_administrativas",
         description := "Despesas proporcionais (energia, água, telefone, etc.)",
         unit := "mês", quantity := 24, unit_value := category_total / 24,
         total_value := category_total }]
  | "reformas" =>
      if percentage > 0 then
        [{ category := "reformas",
           description := "Adaptações para ampliação de atendimento", unit := "conjunto",
           quantity := 1, unit_value := category_total, total_value := category_total }]
      else []
  | "auditoria" =>
      [{ category := "auditoria",
         description := "Auditoria independente (obrigatória)", unit := "projeto",
         quantity := 1, unit_value := category_total, total_value := category_total }]
  | _ => []

/-- The `_generate_project_budget` (`ai-service-enhanced.py` lines 544-656):
normalize the area distribution, then expand each category in order. -/
def generateProjectBudget (area_dist : List (String × ℚ)) (budget_total : ℚ) :
    List BudgetItem :=
  ((normalizeDistribution area_dist).map
    (fun kv => categoryItems budget_total kv.1 kv.2)).flatten

/-- Sum of the `total_value` fields of a list of budget items. -/
def itemsTotal (items : List BudgetItem) : ℚ :=
  (items.map BudgetItem.total_value).sum

/-- Items of a given category. -/
def itemsOfCategory (c : String) (items : List BudgetItem) : List BudgetItem :=
  items.filter (fun it => it.category == c)

/-- The rescaling that the specification section 4.4 describes for a
map lacking `auditoria`: inject `auditoria` at 0.05 and multiply every
other fraction by `(1 - audit_fraction) / (1 - sum_of_existing_fractions)`.
Modelled from the words of the spec, for comparison with
`normalizeDistribution` (the operation the code performs). -/
def specNormalizeDistribution (dist : List (String × ℚ)) : List (String × ℚ) :=
  if dist.any (fun kv => kv.1 == "auditoria") then dist
  else
    let s := (dist.map Prod.snd).sum
    dist.map (fun kv => (kv.1, kv.2 * ((1 - 5/100) / (1 - s)))) ++ [("auditoria", 5/100)]

/-- The excess the fixed 240000 coordination line of
`_generate_project_budget` introduces over the personnel share of the
distribution map: 0 when the map has no `pessoal` key, otherwise
`max 0 (240000 - total × pessoal_fraction)`. -/
def pessoalExcess (dist : List (String × ℚ)) (budget_total : ℚ) : ℚ :=
  match dist.find? (fun kv => kv.1 == "pessoal") with
  | some kv => max 0 (240000 - budget_total * kv.2)
  | none => 0

end Enhanced

namespace Engine

/-- A budget line item as built by `_generate_detailed_budget`
(`backend/ai/engine.py`): plain dicts in the source. -/
structure BudgetItem where
  category : String
  subcategory : String
  description : String
  unit : String
  quantity : ℚ
  unit_value : ℚ
  total_value : ℚ
  nature_expense_code : String
  justification : String
  deriving Repr, DecidableEq

/-- A team member as built by `_generate_specialized_team`. -/
structure TeamMember where
  role : String
  name : String
  weekly_hours : ℕ
  monthly_salary : ℚ
  deriving Repr, DecidableEq

/-- A salary range of `self.team_salary_ranges`
(`_initialize_team_guidelines`). -/
structure SalaryRange where
  min : ℚ
  max : ℚ
  hours_week : ℕ
  deriving Repr, DecidableEq

/-- The `self.team_salary_ranges` (`backend/ai/engine.py` lines 435-449). -/
def teamSalaryRanges : String → SalaryRange
  | "coordenador" => ⟨8000, 15000, 20⟩
  | "medico" => ⟨10000, 20000, 20⟩
  | "fisioterapeuta" => ⟨4000, 8000, 30⟩
  | "terapeuta_ocupacional" => ⟨4000, 8000, 30⟩
  | "fonoaudiologo" => ⟨4000, 8000, 30⟩
  | "psicologo" => ⟨4000, 8000, 30⟩
  | "assistente_social" => ⟨3500, 7000, 30⟩
  | "enfermeiro" => ⟨4000, 8000, 30⟩
  | "educador_fisico" => ⟨3000, 6000, 30⟩
  | "arte_terapeuta" => ⟨3500, 7000, 20⟩
  | "musicoterapeuta" => ⟨3500, 7000, 20⟩
  | "instrutor" => ⟨2500, 5000, 30⟩
  | "auxiliar" => ⟨1800, 3500, 40⟩
  | _ => ⟨2500, 5000, 30⟩

/-- The `role_mapping.get(role_description, "instrutor")` of
`_generate_specialized_team` (lines 1055-1090). -/
def roleMapping : String → String
  | "Coordenador do projeto" => "coordenador"
  | "Coordenador (médico fisiatra ou neurologista)" => "medico"
  | "Coordenador médico especialista" => "medico"
  | "Coordenador médico pediatra/neuropediatra" => "medico"
  | "Coordenador (médico do trabalho ou terapeuta ocupacional)" => "medico"
  | "Coordenador (médico do esporte ou educador físico)" => "medico"
  | "Coordenador (psicólogo ou terapeuta ocupacional)" => "psicologo"
  | "Coordenador (arte-terapeuta ou educador artístico)" => "arte_terapeuta"
  | "Arquiteto especialista em acessibilidade" => "instrutor"
  | "Engenheiro civil" => "instrutor"
  | "Fisioterapeuta" => "fisioterapeuta"
  | "Fisioterapeuta pediátrico" => "fisioterapeuta"
  | "Fisioterapeuta esportivo" => "fisioterapeuta"
  | "Terapeuta ocupacional" => "terapeuta_ocupacional"
  | "Terapeuta ocupacional pediátrico" => "terapeuta_ocupacional"
  | "Fonoaudiólogo" => "fonoaudiologo"
  | "Fonoaudiólogo pediátrico" => "fonoaudiologo"
  | "Psicólogo" => "psicologo"
  | "Psicólogo infantil" => "psicologo"
  | "Psicólogo organizacional" => "psicologo"
  | "Psicólogo do esporte" => "psicologo"
  | "Assistente social" => "assistente_social"
  | "Enfermeiro especializado" => "enfermeiro"
  | "Educador físico especializado" => "educador_fisico"
  | "Classificador funcional" => "instrutor"
  | "Terapeuta especializado em TAA" => "arte_terapeuta"
  | "Condutor de animais certificado" => "instrutor"
  | "Veterinário" => "medico"
  | "Musicoterapeuta" => "musicoterapeuta"
  | "Arte-terapeuta" => "arte_terapeuta"
  | "Instrutor de dança adaptada" => "instrutor"
  | "Produtor cultural" => "instrutor"
  | "Instrutor profissionalizante" => "instrutor"
  | "Auxiliar de atividades" => "auxiliar"
  | _ => "instrutor"

/-- The `required_team_roles` per priority area
(`_initialize_priority_areas_knowledge`). -/
def requiredTeamRoles : String → List String
  | "QSS" => ["Coordenador do projeto", "Arquiteto especialista em acessibilidade",
              "Engenheiro civil", "Terapeuta ocupacional"]
  | "RPD" => ["Coordenador (médico fisiatra ou neurologista)", "Fisioterapeuta",
              "Terapeuta ocupacional", "Fonoaudiólogo", "Psicólogo", "Assistente social"]
  | "DDP" => ["Coordenador médico especialista", "Neuropsicólogo", "Psicólogo",
              "Fonoaudiólogo", "Terapeuta ocupacional"]
  | "EPD" => ["Coordenador médico pediatra/neuropediatra", "Fisioterapeuta pediátrico",
              "Terapeuta ocupacional pediátrico", "Fonoaudiólogo pediátrico",
              "Psicólogo infantil", "Enfermeiro especializado"]
  | "ITR" => ["Coordenador (médico do trabalho ou terapeuta ocupacional)",
              "Terapeuta ocupacional", "Psicólogo organizacional", "Assistente social",
              "Instrutor profissionalizante"]
  | "APE" => ["Coordenador (médico do esporte ou educador físico)",
              "Educador físico especializado", "Fisioterapeuta esportivo",
              "Classificador funcional", "Psicólogo do esporte"]
  | "TAA" => ["Coordenador (psicólogo ou terapeuta ocupacional)",
              "Terapeuta especializado em TAA", "Condutor de animais certificado",
              "Veterinário", "Auxiliar de atividades"]
  | "APC" => ["Coordenador (arte-terapeuta ou educador artístico)", "Musicoterapeuta",
              "Arte-terapeuta", "Instrutor de dança adaptada", "Produtor cultural"]
  | _ => []

/-- The `typical_budget_distribution` per priority area of
`backend/ai/engine.py` (values are percentages). -/
def engineDist : String → List (String × ℚ)
  | "QSS" => [("material_permanente", 45), ("reformas", 30), ("material_consumo", 10),
              ("pessoal", 10), ("auditoria", 3), ("captacao_recursos", 2)]
  | "RPD" => [("pessoal", 60), ("material_permanente", 20), ("material_consumo", 10),
              ("despesas_administrativas", 5), ("auditoria", 3), ("captacao_recursos", 2)]
  | "DDP" => [("pessoal", 50), ("material_permanente", 25), ("material_consumo", 15),
              ("despesas_administrativas", 5), ("auditoria", 3), ("captacao_recursos", 2)]
  | "EPD" => [("pessoal", 55), ("material_permanente", 20), ("material_consumo", 15),
              ("despesas_administrativas", 5), ("auditoria", 3), ("captacao_recursos", 2)]
  | "ITR" => [("pessoal", 45), ("material_permanente", 25), ("material_consumo", 15),
              ("despesas_administrativas", 10), ("auditoria", 3), ("captacao_recursos", 2)]
  | "APE" => [("pessoal", 40), ("material_permanente", 35), ("material_consumo", 15),
              ("despesas_administrativas", 5), ("auditoria", 3), ("captacao_recursos", 2)]
  | "TAA" => [("pessoal", 50), ("material_consumo", 25), ("material_permanente", 15),
              ("despesas_administrativas", 5), ("auditoria", 3), ("captacao_recursos", 2)]
  | "APC" => [("pessoal", 45), ("material_consumo", 30), ("material_permanente", 15),
              ("despesas_administrativas", 5), ("auditoria", 3), ("captacao_recursos", 2)]
  | _ => []

/-- The `budget_dist.get(key, 0)` on an engine distribution map. -/
def distGet (dist : List (String × ℚ)) (key : String) : ℚ :=
  match dist.find? (fun kv => kv.1 == key) with
  | some kv => kv.2
  | none => 0

/-- The Python builtin `round` at 2 digits (round-half-even on cents),
applied to the salary stored in a generated team member. -/
def round2 (q : ℚ) : ℚ :=
  let n : ℤ := ⌊q * 100⌋
  let r : ℚ := q * 100 - n
  if r < 1/2 then (n : ℚ) / 100
  else if r > 1/2 then ((n : ℚ) + 1) / 100
  else if n % 2 = 0 then (n : ℚ) / 100 else ((n : ℚ) + 1) / 100

/-- The role loop of `_generate_specialized_team` (lines 1092-1122).
`draw i` stands for the value `random.uniform(min, max)` returned at
the i-th loop iteration; the salary is clipped to `remaining / 24`, a
role whose clipped salary is below half the category minimum is skipped
(`continue`), and the loop breaks once the remaining budget is spent. -/
def teamLoop (draw : ℕ → ℚ) : List String → ℕ → ℚ → List TeamMember
  | [], _, _ => []
  | role :: rest, i, remaining =>
      let cat := roleMapping role
      let s := teamSalaryRanges cat
      let monthly_salary := min (draw i) (remaining / 24)
      if monthly_salary < s.min * (1/2) then
        teamLoop draw rest (i + 1) remaining
      else
        let member : TeamMember :=
          { role := role, name := "Profissional " ++ role,
            weekly_hours := s.hours_week, monthly_salary := round2 monthly_salary }
        let remaining2 := remaining - monthly_salary * 24
        member :: (if remaining2 ≤ 0 then [] else teamLoop draw rest (i + 1) remaining2)

/-- The `_generate_specialized_team` (lines 1046-1122): the personnel budget
is `total_budget × pessoal_percentage / 100`, then the role loop runs
over the required roles of the area. -/
def generateSpecializedTeam (code : String) (total_budget : ℚ) (draw : ℕ → ℚ) :
    List TeamMember :=
  let personnel_budget := total_budget * (distGet (engineDist code) "pessoal" / 100)
  teamLoop draw (requiredTeamRoles code) 0 personnel_budget

/-- An entry of the per-area `equipment_catalog` of
`_generate_equipment_items`. -/
structure Equipment where
  name : String
  unit_price : ℚ
  quantity : ℚ
  deriving Repr, DecidableEq

/-- The `equipment_catalog` (`backend/ai/engine.py` lines 1233-1292). -/
def equipmentCatalog : String → List Equipment
  | "QSS" => [⟨"Cadeira de rodas hospitalar", 2500, 4⟩,
              ⟨"Maca de transferência hidráulica", 8000, 2⟩,
              ⟨"Sistema de sinalização tátil", 15000, 1⟩,
              ⟨"Mobiliário adaptado para recepção", 12000, 1⟩,
              ⟨"Equipamento de comunicação alternativa", 5000, 3⟩,
              ⟨"Barras de apoio e corrimãos", 3000, 2⟩]
  | "RPD" => [⟨"Aparelho de FES (Estimulação Elétrica)", 25000, 1⟩,
              ⟨"Mesa de fisioterapia elétrica", 8000, 2⟩,
              ⟨"Equipamento de marcha assistida", 35000, 1⟩,
              ⟨"Kit de órteses e próteses", 15000, 1⟩,
              ⟨"Equipamento de terapia ocupacional", 12000, 1⟩,
              ⟨"Sistema de comunicação alternativa", 8000, 2⟩]
  | "DDP" => [⟨"Equipamento de avaliação neuropsicológica", 20000, 1⟩,
              ⟨"Kit de testes diagnósticos", 15000, 1⟩,
              ⟨"Equipamento de audiometria", 25000, 1⟩,
              ⟨"Material de avaliação do desenvolvimento", 10000, 1⟩,
              ⟨"Sistema de videoconferência para discussão de casos", 8000, 1⟩]
  | "EPD" => [⟨"Brinquedos terapêuticos para estimulação", 8000, 2⟩,
              ⟨"Equipamento de estimulação sensorial", 15000, 1⟩,
              ⟨"Material de fisioterapia pediátrica", 12000, 1⟩,
              ⟨"Kit de avaliação do desenvolvimento infantil", 10000, 1⟩,
              ⟨"Mobiliário adaptado para crianças", 6000, 2⟩]
  | "ITR" => [⟨"Equipamento de tecnologia assistiva para trabalho", 20000, 2⟩,
              ⟨"Software de treinamento profissional", 15000, 1⟩,
              ⟨"Equipamento de adaptação de posto de trabalho", 12000, 2⟩,
              ⟨"Ferramentas e equipamentos de oficina", 18000, 1⟩,
              ⟨"Material didático para capacitação", 8000, 1⟩]
  | "APE" => [⟨"Equipamento de musculação adaptado", 35000, 1⟩,
              ⟨"Material esportivo paradesportivo", 15000, 2⟩,
              ⟨"Cadeiras de rodas esportivas", 12000, 3⟩,
              ⟨"Equipamento de fisioterapia esportiva", 20000, 1⟩,
              ⟨"Material de natação adaptada", 8000, 1⟩]
  | "TAA" => [⟨"Equipamento de higienização para animais", 8000, 1⟩,
              ⟨"Material de segurança para TAA", 5000, 2⟩,
              ⟨"Equipamento veterinário básico", 12000, 1⟩,
              ⟨"Material de treinamento animal", 6000, 1⟩,
              ⟨"Estrutura física para atividades", 15000, 1⟩]
  | "APC" => [⟨"Instrumentos musicais adaptados", 15000, 1⟩,
              ⟨"Material de artes visuais", 8000, 2⟩,
              ⟨"Equipamento de som e audiovisual", 12000, 1⟩,
              ⟨"Material de teatro e expressão", 6000, 1⟩,
              ⟨"Equipamento de produção cultural", 10000, 1⟩]
  | _ => []

/-- The greedy selection loop of `_generate_equipment_items`
(lines 1294-1317): stop when the remaining budget is spent, keep an
entry when its total cost fits the remaining budget. -/
def equipmentItems (area_name : String) : List Equipment → ℚ → List BudgetItem
  | [], _ => []
  | e :: rest, remaining =>
      if remaining ≤ 0 then []
      else
        let total_cost := e.unit_price * e.quantity
        if total_cost ≤ remaining then
          { category := "material_permanente", subcategory := e.name,
            description := e.name ++ " - unidade(s)", unit := "unidade",
            quantity := e.quantity, unit_value := e.unit_price,
            total_value := total_cost, nature_expense_code := "449052",
            justification := "Equipamento necessário para " ++ area_name }
            :: equipmentItems area_name rest (remaining - total_cost)
        else equipmentItems area_name rest remaining

/-- The `_generate_consumable_items` (lines 1319-1349): a 30% / 70% split of
the consumables budget. -/
def consumableItems (area_name : String) (budget : ℚ) : List BudgetItem :=
  [{ category := "material_consumo", subcategory := "Material de escritório",
     description := "Papelaria, impressos, material gráfico para 24 meses",
     unit := "mês", quantity := 24, unit_value := budget * (30/100) / 24,
     total_value := budget * (30/100), nature_expense_code := "339030",
     justification := "Material de escritório necessário para funcionamento do projeto" },
   { category := "material_consumo", subcategory := "Material específico da área",
     description := "Materiais específicos para " ++ area_name ++ " por 24 meses",
     unit := "mês", quantity := 24, unit_value := budget * (70/100) / 24,
     total_value := budget * (70/100), nature_expense_code := "339030",
     justification := "Materiais de consumo específicos para as atividades do projeto" }]

/-- The `_generate_reform_items` (lines 1351-1370). -/
def reformItems (budget : ℚ) : List BudgetItem :=
  [{ category := "reformas", subcategory := "Adequação de acessibilidade",
     description := "Reformas para adequação de acessibilidade conforme NBR 9050",
     unit := "m²", quantity := 200, unit_value := budget / 200,
     total_value := budget, nature_expense_code := "449051",
     justification := "Adequação da infraestrutura física para acessibilidade universal" }]

/-- The `_generate_administrative_items` (lines 1372-1402): a 40% / 60%
split of the administrative budget. -/
def administrativeItems (budget : ℚ) : List BudgetItem :=
  [{ category := "despesas_administrativas", subcategory := "Comunicação e internet",
     description := "Telefone fixo e móvel, internet banda larga por 24 meses",
     unit := "mês", quantity := 24, unit_value := budget * (40/100) / 24,
     total_value := budget * (40/100), nature_expense_code := "339039",
     justification := "Despesas com comunicação necessárias para o projeto" },
   { category := "despesas_administrativas", subcategory := "Transporte e combustível",
     description := "Transporte para atividades do projeto e visitas domiciliares",
     unit := "mês", quantity := 24, unit_value := budget * (60/100) / 24,
     total_value := budget * (60/100), nature_expense_code := "339039",
     justification := "Despesas com transporte para execução das atividades" }]

/-- The personnel section of `_generate_detailed_budget`
(lines 1154-1169): one line item per generated team member, costed over
the 24-month horizon. -/
def personnelItems (team : List TeamMember) : List BudgetItem :=
  team.map (fun member =>
    { category := "pessoal", subcategory := member.role,
      description := member.role ++ " - h/semana por 24 meses", unit := "mês",
      quantity := 24, unit_value := member.monthly_salary,
      total_value := member.monthly_salary * 24, nature_expense_code := "339036",
      justification := "Contratação de " ++ member.role ++
        " conforme carga horária e qualificação exigida" })

/-- The mandatory audit line of `_generate_detailed_budget`
(lines 1195-1207): `max(total_budget * 0.03, 5000)`. -/
def auditItem (total_budget : ℚ) : BudgetItem :=
  { category := "auditoria", subcategory := "Auditoria Independente",
    description := "Auditoria independente conforme exigência PRONAS/PCD",
    unit := "serviço", quantity := 1,
    unit_value := max (total_budget * (3/100)) 5000,
    total_value := max (total_budget * (3/100)) 5000,
    nature_expense_code := "339039",
    justification := "Auditoria independente obrigatória conforme Portaria de Consolidação nº 5/2017" }

/-- The fundraising line of `_generate_detailed_budget`
(lines 1209-1222): percentage `min(5, (50000 / total_budget) * 100)` of
the total budget. -/
def captacaoItem (total_budget : ℚ) : BudgetItem :=
  let captacao_percentage := min 5 ((50000 / total_budget) * 100)
  let captacao_budget := total_budget * (captacao_percentage / 100)
  { category := "captacao_recursos", subcategory := "Captação de Recursos",
    description := "Captação de recursos - percentual do orçamento total",
    unit := "serviço", quantity := 1, unit_value := captacao_budget,
    total_value := captacao_budget, nature_expense_code := "339039",
    justification := "Captação de recursos conforme limite estabelecido (máximo 5% ou R$ 50.000)" }

/-- The `_generate_detailed_budget` (`backend/ai/engine.py` lines
1146-1224), with the generated team passed in as in the source. The
area name used inside descriptions is taken from the area code. -/
def generateDetailedBudget (code : String) (total_budget : ℚ)
    (team : List TeamMember) : List BudgetItem :=
  let budget_dist := engineDist code
  personnelItems team
  ++ (if distGet budget_dist "material_permanente" > 0 then
        equipmentItems code (equipmentCatalog code)
          (total_budget * (distGet budget_dist "material_permanente" / 100))
      else [])
  ++ (if distGet budget_dist "material_consumo" > 0 then
        consumableItems code (total_budget * (distGet budget_dist "material_consumo" / 100))
      else [])
  ++ (if distGet budget_dist "reformas" > 0 then
        reformItems (total_budget * (distGet budget_dist "reformas" / 100))
      else [])
  ++ (if distGet budget_dist "despesas_administrativas" > 0 then
        administrativeItems (total_budget * (distGet budget_dist "despesas_administrativas" / 100))
      else [])
  ++ [auditItem total_budget]
  ++ [captacaoItem total_budget]

/-- Items of a given category (engine items). -/
def itemsOfCategory (c : String) (items : List BudgetItem) : List BudgetItem :=
  items.filter (fun it => it.category == c)

/-- Sum of the `total_value` fields (engine items). -/
def itemsTotal (items : List BudgetItem) : ℚ :=
  (items.map BudgetItem.total_value).sum

end Engine

namespace Enhanced

/-- A team member, mirroring `ProjectTeamCreate` of `schemas.py`. -/
structure ProjectTeamCreate where
  role : String
  name : String
  qualification : String
  weekly_hours : ℕ
  monthly_salary : ℚ
  deriving Repr, DecidableEq

/-- A goal indicator, mirroring `ProjectGoalCreate` of `schemas.py`
(the monitoring frequency enum is kept as its string value). -/
structure ProjectGoalCreate where
  indicator_name : String
  target_value : ℚ
  measurement_method : String
  frequency : String
  deriving Repr, DecidableEq

/-- A timeline phase, mirroring `ProjectTimelineCreate` of `schemas.py`. -/
structure ProjectTimelineCreate where
  phase_name : String
  start_month : ℕ
  end_month : ℕ
  deliverables : List String
  deriving Repr, DecidableEq

/-- The validation dict built by `_validate_project_compliance`
(`ai-service-enhanced.py` lines 787-841).  The `compliance_checks`
sub-dict stays empty in the source and is omitted. -/
structure ValidationResult where
  is_valid : Bool
  errors : List String
  warnings : List String
  deriving Repr, DecidableEq

/-- The full project payload, mirroring `ProjectCreate` of `schemas.py`
as populated by `generate_project_from_guidelines`. -/
structure ProjectCreate where
  title : String
  description : String
  field_of_action : String
  priority_area_id : ℕ
  general_objective : String
  specific_objectives : List String
  justification : String
  target_audience : String
  methodology : String
  expected_results : String
  budget_total : ℚ
  timeline_months : ℕ
  team_members : List ProjectTeamCreate
  budget_items : List BudgetItem
  goals : List ProjectGoalCreate
  timeline : List ProjectTimelineCreate
  deriving Repr, DecidableEq

/-- An entry of the simulated similar-projects list
(`_find_similar_projects`). -/
structure SimilarProject where
  id : String
  title : String
  institution : String
  similarity_score : ℚ
  budget_total : ℚ
  success_rate : ℚ
  deriving Repr, DecidableEq

/-- The response payload, mirroring `AIProjectResponse` of `schemas.py`. -/
structure AIProjectResponse where
  project : ProjectCreate
  confidence_score : ℚ
  compliance_score : ℚ
  recommendations : List String
  validation_results : ValidationResult
  similar_projects : List SimilarProject
  deriving Repr, DecidableEq

/-- The institution dict consumed through `.get` calls with defaults. -/
structure InstitutionData where
  name : Option String := none
  city : Option String := none
  state : Option String := none
  institution_type : Option String := none
  deriving Repr, DecidableEq

/-- The requirements dict consumed through `.get` calls with defaults. -/
structure ProjectRequirements where
  budget_total : Option ℚ := none
  timeline_months : Option ℕ := none
  deriving Repr, DecidableEq

/-- Failure outcomes of the generation pipeline: the `ValueError` raised
for an unknown priority-area code (`ai-service-enhanced.py` lines
245-247) and the `ValueError`s raised by the two pydantic validators of
`ProjectCreate` (`schemas.py` lines 218-248). -/
inductive GenError where
  | unknownArea (code : String)
  | budgetSumMismatch
  | auditMissing
  | captacaoExceeded
  | timelineExceedsDuration
  deriving Repr, DecidableEq

/-- Whether a generation error is the unknown-area `ValueError`. -/
def GenError.isUnknownArea : GenError → Bool
  | .unknownArea _ => true
  | _ => false

/-- The Python substring test `needle in s`, via `splitOn`: the needle
occurs in `s` exactly when splitting on it yields more than one part. -/
def containsSub (needle s : String) : Bool :=
  (s.splitOn needle).length != 1

/-- The `name` field of each area profile in `_load_priority_areas`
(`ai-service-enhanced.py`). -/
def areaName : String → String
  | "QSS" => "Qualificação de serviços de saúde"
  | "RPD" => "Reabilitação/habilitação da pessoa com deficiência"
  | "DDP" => "Diagnóstico diferencial da pessoa com deficiência"
  | "EPD" => "Identificação e estimulação precoce das deficiências"
  | "ITR" => "Adaptação, inserção e reinserção no trabalho"
  | "APE" => "Apoio à saúde por meio de práticas esportivas"
  | "TAA" => "Terapia assistida por animais"
  | "APC" => "Apoio à saúde por produção artística e cultural"
  | _ => ""

/-- The `description` field of each area profile in
`_load_priority_areas`. -/
def areaDescription : String → String
  | "QSS" => "Adequação da ambiência de estabelecimentos"
  | "RPD" => "Ações de reabilitação e habilitação"
  | "DDP" => "Diagnóstico especializado e diferencial"
  | "EPD" => "Detecção e intervenção precoce"
  | "ITR" => "Inclusão e reinclusão no mercado de trabalho"
  | "APE" => "Atividades esportivas como apoio à saúde"
  | "TAA" => "Terapia com animais como complemento"
  | "APC" => "Atividades artísticas e culturais"
  | _ => ""

/-- The `title_templates` dict of `_generate_project_structure` with its
`.get` fallback built from the profile. -/
def titleTemplate (code institution_name : String) : String :=
  match code with
  | "QSS" => "Qualificação e Adequação dos Serviços de Saúde - " ++ institution_name
  | "RPD" => "Programa de Reabilitação e Habilitação Integral - " ++ institution_name
  | "DDP" => "Centro de Diagnóstico Diferencial e Especializado - " ++ institution_name
  | "EPD" => "Programa de Estimulação e Intervenção Precoce - " ++ institution_name
  | "ITR" => "Programa de Inclusão e Capacitação Profissional - " ++ institution_name
  | "APE" => "Programa de Esporte Adaptado e Atividade Física - " ++ institution_name
  | "TAA" => "Programa de Terapia Assistida por Animais - " ++ institution_name
  | "APC" => "Programa de Arte e Cultura Terapêuticas - " ++ institution_name
  | c => "Projeto " ++ areaName c ++ " - " ++ institution_name

/-- The `general_objectives` dict of `_generate_project_structure` with
its `.get` fallback (the profile description).  The APC entry keeps the
`pessoas with deficiência` wording of the source verbatim. -/
def generalObjectiveTemplate (code institution_name : String) : String :=
  match code with
  | "QSS" => "Qualificar e adequar os serviços de saúde oferecidos pela " ++ institution_name ++ ", promovendo melhorias na ambiência e infraestrutura para garantir atendimento de qualidade às pessoas com deficiência, em conformidade com as normas de acessibilidade e diretrizes do PRONAS/PCD."
  | "RPD" => "Desenvolver e implementar programa abrangente de reabilitação e habilitação para pessoas com deficiência, oferecendo atendimento multiprofissional especializado que promova a funcionalidade, autonomia e qualidade de vida dos beneficiários."
  | "DDP" => "Estabelecer centro de referência para diagnóstico diferencial e especializado de pessoas com deficiência, oferecendo avaliações multiprofissionais precisas e precoces que fundamentem intervenções terapêuticas adequadas."
  | "EPD" => "Implementar programa de identificação, avaliação e estimulação precoce de deficiências, proporcionando intervenção oportuna no desenvolvimento infantil e orientação às famílias para maximizar o potencial de desenvolvimento das crianças."
  | "ITR" => "Desenvolver programa de capacitação profissional e inserção no mercado de trabalho para pessoas com deficiência, promovendo autonomia econômica e inclusão social através de formação especializada e apoio à empregabilidade."
  | "APE" => "Implementar programa de esporte adaptado e atividades físicas terapêuticas, promovendo a saúde, bem-estar e inclusão social de pessoas com deficiência através de práticas esportivas adequadas às suas necessidades específicas."
  | "TAA" => "Desenvolver programa de terapia assistida por animais como complemento terapêutico inovador, utilizando a interação pessoa-animal para promover benefícios físicos, emocionais e sociais aos beneficiários com deficiência."
  | "APC" => "Implementar programa de produção artística e cultural adaptada, utilizando expressões artísticas como ferramenta terapêutica para desenvolvimento pessoal, expressão criativa e inclusão social de pessoas with deficiência."
  | c => areaDescription c

/-- The `specific_objectives` dict of `_generate_project_structure`
with its `.get` fallback list. -/
def specificObjectivesTemplate (code : String) : List String :=
  match code with
  | "QSS" => ["Adequar 100% dos espaços físicos às normas de acessibilidade (NBR 9050)",
              "Implantar sinalizações táteis, visuais e auditivas em todos os ambientes",
              "Capacitar 100% da equipe em atendimento acessível e humanizado",
              "Estabelecer fluxos de atendimento otimizados para pessoas com deficiência"]
  | "RPD" => ["Oferecer 2.000 atendimentos anuais de fisioterapia especializada",
              "Realizar 1.500 sessões anuais de terapia ocupacional",
              "Proporcionar 1.200 atendimentos anuais de fonoaudiologia",
              "Desenvolver protocolos de reabilitação individualizados para 100% dos usuários"]
  | "DDP" => ["Realizar 800 avaliações diagnósticas especializadas anuais",
              "Estabelecer protocolos de diagnóstico diferencial padronizados",
              "Capacitar equipe multiprofissional em avaliação diagnóstica",
              "Desenvolver sistema de registro e acompanhamento longitudinal"]
  | "EPD" => ["Avaliar 500 crianças anualmente para identificação precoce de deficiências",
              "Ofertas 300 vagas de estimulação precoce",
              "Capacitar 100% das famílias em técnicas de estimulação domiciliar",
              "Estabelecer rede de referência e contrarreferência com atenção básica"]
  | "ITR" => ["Capacitar 200 pessoas com deficiência em atividades profissionais",
              "Estabelecer parcerias com 50 empresas para colocação profissional",
              "Atingir taxa de empregabilidade de 70% dos capacitados",
              "Desenvolver programa de acompanhamento pós-inserção por 12 meses"]
  | "APE" => ["Atender 300 pessoas com deficiência em atividades esportivas adaptadas",
              "Oferecer 8 modalidades esportivas diferentes",
              "Formar e capacitar 20 atletas para competições paradesportivas",
              "Promover 4 eventos esportivos inclusivos anuais"]
  | "TAA" => ["Realizar 1.000 sessões anuais de terapia assistida por animais",
              "Capacitar 10 profissionais em TAA",
              "Desenvolver protocolos específicos para diferentes deficiências",
              "Estabelecer programa de bem-estar animal certificado"]
  | "APC" => ["Atender 250 pessoas em oficinas artísticas e culturais adaptadas",
              "Oferecer 6 modalidades artísticas diferentes",
              "Promover 4 apresentações e exposições anuais",
              "Capacitar familiares em atividades artísticas terapêuticas"]
  | _ => ["Implementar ações especializadas na área prioritária",
          "Capacitar equipe técnica especializada",
          "Estabelecer indicadores de qualidade e impacto"]

/-- The justification template of `_generate_justification`
(`ai-service-enhanced.py` lines 426-464), with the f-string
interpolations made explicit and the surrounding `.strip()` applied. -/
def generateJustification (code institution_name city state : String) : String :=
  "Este projeto se justifica pela necessidade urgente de " ++ (areaDescription code).toLower ++ " no contexto da " ++ institution_name ++ ", localizada em " ++ city ++ "/" ++ state ++ ".\n\n" ++
  "CONTEXTO EPIDEMIOLÓGICO E SOCIAL:\nSegundo dados do IBGE (Censo 2010), aproximadamente 23,9% da população brasileira possui algum tipo de deficiência, representando cerca de 45,6 milhões de pessoas. No contexto local, estima-se que " ++ city ++ " possua aproximadamente [inserir dados locais] pessoas com deficiência que necessitam de atenção especializada na área de " ++ (areaName code).toLower ++ ".\n\n" ++
  "LACUNA ASSISTENCIAL:\nA " ++ institution_name ++ " identificou uma lacuna significativa na oferta de serviços especializados em " ++ (areaName code).toLower ++ ", evidenciada pela demanda reprimida de [inserir dados] pessoas aguardando atendimento. Esta situação compromete o acesso oportuno aos cuidados necessários, impactando diretamente na qualidade de vida e no desenvolvimento funcional dos usuários.\n\n" ++
  "FUNDAMENTAÇÃO LEGAL:\nEste projeto fundamenta-se na Lei nº 13.146/2015 (Lei Brasileira de Inclusão), que assegura o direito à saúde da pessoa com deficiência, e na Portaria de Consolidação nº 5/2017 do Ministério da Saúde, que regulamenta o PRONAS/PCD. Alinha-se também à Convenção Internacional sobre os Direitos das Pessoas com Deficiência, promulgada pelo Decreto nº 6.949/2009.\n\n" ++
  "RELEVÂNCIA TÉCNICA:\nAs ações propostas seguem evidências científicas consolidadas e boas práticas internacionais em " ++ (areaName code).toLower ++ ". A implementação deste projeto permitirá:\n- Ampliação da capacidade instalada em [inserir percentual]\n- Redução do tempo de espera para atendimento especializado\n- Melhoria na qualidade dos serviços oferecidos\n- Fortalecimento da Rede de Cuidados à Pessoa com Deficiência local\n\n" ++
  "IMPACTO ESPERADO:\nO projeto beneficiará diretamente [inserir número] pessoas com deficiência anualmente, com impacto indireto em suas famílias e cuidadores. Os resultados esperados incluem melhoria funcional mensurável em 80% dos casos, aumento da autonomia em 70% dos beneficiários e satisfação superior a 90% entre usuários e familiares.\n\n" ++
  "SUSTENTABILIDADE:\nA sustentabilidade do projeto será garantida através de parcerias com o SUS local, capacitação contínua da equipe, integração com a rede de atenção à saúde e busca de fontes alternativas de financiamento após o período de execução do PRONAS/PCD.\n\n" ++
  "ALINHAMENTO COM PRONAS/PCD:\nEste projeto alinha-se perfeitamente com os objetivos do PRONAS/PCD de fortalecer as ações de atenção à saúde da pessoa com deficiência, complementando as ações do SUS e promovendo a equidade no acesso aos serviços de saúde especializados."

/-- The target-audience template of `_generate_target_audience`
(lines 955-975). -/
def generateTargetAudience (code : String) : String :=
  "PÚBLICO-ALVO PRIORITÁRIO:\nPessoas com deficiência física, intelectual, auditiva, visual, múltipla, com ostomia e/ou transtorno do espectro autista, na faixa etária específica para " ++ (areaName code).toLower ++ ".\n\n" ++
  "CRITÉRIOS DE INCLUSÃO:\n- Residir na área de abrangência do projeto\n- Possuir diagnóstico confirmado de deficiência\n- Apresentar demanda específica para a área de atuação\n- Aceitar participar do projeto e assinar termo de consentimento\n- Ter acompanhante/cuidador quando necessário\n\n" ++
  "CRITÉRIOS DE EXCLUSÃO:\n- Condições clínicas que impeçam a participação nas atividades\n- Não residir na área de abrangência\n- Não aceitar os termos do projeto\n\n" ++
  "BENEFICIÁRIOS INDIRETOS:\nFamiliares, cuidadores e comunidade em geral, estimando-se 3 pessoas indiretamente beneficiadas para cada beneficiário direto."

/-- The methodology template of `_generate_methodology`
(lines 977-1010). -/
def generateMethodology (code : String) : String :=
  "ABORDAGEM METODOLÓGICA:\nEste projeto utilizará abordagem multidisciplinar e centrada na pessoa, seguindo as melhores práticas em " ++ (areaName code).toLower ++ " e evidências científicas atuais.\n\n" ++
  "FASES DE IMPLEMENTAÇÃO:\n1. ACOLHIMENTO E AVALIAÇÃO INICIAL\n   - Recepção e acolhimento humanizado\n   - Avaliação multidisciplinar padronizada\n   - Estabelecimento de plano terapêutico individualizado\n\n" ++
  "2. INTERVENÇÃO ESPECIALIZADA\n   - Atendimentos individuais e/ou grupais\n   - Utilização de protocolos baseados em evidências\n   - Monitoramento contínuo da evolução\n\n" ++
  "3. ACOMPANHAMENTO E AVALIAÇÃO\n   - Reavaliações periódicas\n   - Ajustes no plano terapêutico\n   - Medição de resultados e impactos\n\n" ++
  "INSTRUMENTOS E FERRAMENTAS:\n- Protocolos de avaliação padronizados\n- Escalas de medição validadas\n- Sistema de registro e monitoramento\n- Indicadores de processo e resultado\n\n" ++
  "ARTICULAÇÃO COM A REDE:\n- Integração com SUS local\n- Parcerias com outras instituições\n- Sistema de referência e contrarreferência\n- Trabalho intersetorial quando necessário"

/-- The expected-results template of `_generate_expected_results`
(lines 1012-1046); the source interpolates nothing here. -/
def generateExpectedResults : String :=
  "RESULTADOS ESPERADOS:\n\n" ++
  "QUANTITATIVOS:\n- [X] beneficiários diretos atendidos anualmente\n- [Y] atendimentos/sessões realizados\n- [Z]% de taxa de satisfação dos usuários\n- Redução de [W]% no tempo de espera para atendimento\n\n" ++
  "QUALITATIVOS:\n- Melhoria mensurável na funcionalidade dos beneficiários\n- Aumento da autonomia e qualidade de vida\n- Satisfação de familiares e cuidadores\n- Capacitação de profissionais especializados\n\n" ++
  "IMPACTOS DE MÉDIO E LONGO PRAZO:\n- Fortalecimento da rede de atenção à pessoa com deficiência\n- Modelo replicável para outras instituições\n- Contribuição para políticas públicas locais\n- Melhoria dos indicadores epidemiológicos locais\n\n" ++
  "PRODUTOS E ENTREGAS:\n- Protocolos padronizados de atendimento\n- Material didático e instrucional\n- Relatórios técnicos e científicos\n- Sistema de monitoramento e avaliação\n\n" ++
  "SUSTENTABILIDADE:\n- Equipe capacitada para continuidade\n- Parcerias estabelecidas com rede local\n- Protocolos implantados na rotina institucional\n- Busca de novos financiamentos"

/-- The intermediate dict returned by `_generate_project_structure`
(lines 322-424). -/
structure ProjectStructureParts where
  title : String
  description : String
  general_objective : String
  specific_objectives : List String
  justification : String
  target_audience : String
  methodology : String
  expected_results : String
  timeline_months : ℕ
  deriving Repr, DecidableEq

/-- The function `_generate_project_structure`: template lookups keyed
by area code, interpolated with the institution descriptor. -/
def generateProjectStructure (inst : InstitutionData) (req : ProjectRequirements)
    (code : String) : ProjectStructureParts :=
  let institution_name := inst.name.getD "Instituição"
  let city := inst.city.getD "município"
  let state := inst.state.getD "estado"
  { title := titleTemplate code institution_name,
    description := "Projeto desenvolvido pela " ++ institution_name ++ " na área de "
      ++ areaName code ++ ", visando " ++ (areaDescription code).toLower
      ++ " de forma especializada e conforme diretrizes do PRONAS/PCD.",
    general_objective := generalObjectiveTemplate code institution_name,
    specific_objectives := specificObjectivesTemplate code,
    justification := generateJustification code institution_name city state,
    target_audience := generateTargetAudience code,
    methodology := generateMethodology code,
    expected_results := generateExpectedResults,
    timeline_months := req.timeline_months.getD 24 }

/-- The `area_teams` dict of `_generate_project_team`
(lines 480-514). -/
def areaTeams : String → List ProjectTeamCreate
  | "QSS" => [⟨"Arquiteto Especialista", "[A ser definido]", "Arquiteto com especialização em acessibilidade", 20, 8000⟩,
              ⟨"Engenheiro", "[A ser definido]", "Engenheiro civil com experiência em adaptações", 20, 7000⟩]
  | "RPD" => [⟨"Fisioterapeuta", "[A ser definido]", "Fisioterapeuta com especialização em neurologia", 40, 6000⟩,
              ⟨"Terapeuta Ocupacional", "[A ser definido]", "TO com experiência em reabilitação", 40, 5500⟩,
              ⟨"Fonoaudiólogo", "[A ser definido]", "Fonoaudiólogo especialista", 30, 5000⟩]
  | "DDP" => [⟨"Neuropsicólogo", "[A ser definido]", "Psicólogo com especialização em neuropsicologia", 30, 7000⟩,
              ⟨"Médico Especialista", "[A ser definido]", "Médico com residência em área específica", 20, 12000⟩]
  | "EPD" => [⟨"Pediatra", "[A ser definido]", "Médico pediatra especializado", 20, 10000⟩,
              ⟨"Psicólogo Infantil", "[A ser definido]", "Psicólogo especializado em desenvolvimento infantil", 40, 6000⟩]
  | "ITR" => [⟨"Pedagogo", "[A ser definido]", "Pedagogo com experiência em educação especial", 40, 5000⟩,
              ⟨"Terapeuta Ocupacional", "[A ser definido]", "TO especializado em reabilitação profissional", 30, 5500⟩]
  | "APE" => [⟨"Educador Físico", "[A ser definido]", "Professor de Educação Física especializado em esporte adaptado", 40, 4500⟩,
              ⟨"Fisioterapeuta", "[A ser definido]", "Fisioterapeuta esportivo", 30, 6000⟩]
  | "TAA" => [⟨"Veterinário", "[A ser definido]", "Médico veterinário especializado em TAA", 20, 6000⟩,
              ⟨"Psicólogo", "[A ser definido]", "Psicólogo com certificação em TAA", 30, 5500⟩]
  | "APC" => [⟨"Arteterapeuta", "[A ser definido]", "Profissional certificado em arteterapia", 30, 5000⟩,
              ⟨"Musicoterapeuta", "[A ser definido]", "Musicoterapeuta registrado", 20, 4500⟩]
  | _ => []

/-- The function `_generate_project_team` (lines 466-542): mandatory
coordinator, then the area-specific members, then the administrative
assistant.  The budget argument of the source is ignored there too. -/
def generateProjectTeam (code : String) (_budget_total : ℚ) : List ProjectTeamCreate :=
  [⟨"Coordenador Geral", "[A ser definido]",
    "Profissional de nível superior com especialização na área, experiência mínima de 5 anos em gestão de projetos e conhecimento das diretrizes do PRONAS/PCD",
    20, 10000⟩]
  ++ areaTeams code
  ++ [⟨"Assistente Administrativo", "[A ser definido]",
       "Ensino médio completo, experiência em atividades administrativas e conhecimento básico de informática",
       40, 2500⟩]

/-- The function `_generate_project_goals` (lines 658-716): two common
indicators, plus an area-specific indicator for QSS, RPD and DDP. -/
def generateProjectGoals (code : String) : List ProjectGoalCreate :=
  [⟨"Taxa de satisfação dos usuários", 90,
    "Pesquisa de satisfação aplicada trimestralmente com escala Likert de 5 pontos", "trimestral"⟩,
   ⟨"Número de beneficiários atendidos", 500,
    "Contagem de beneficiários únicos atendidos no período, registrados em sistema", "mensal"⟩]
  ++ (match code with
      | "QSS" => [⟨"Percentual de adequação às normas de acessibilidade", 100,
                   "Avaliação técnica baseada na NBR 9050 e lista de verificação padronizada", "semestral"⟩]
      | "RPD" => [⟨"Taxa de melhoria funcional", 80,
                   "Aplicação de escalas funcionais padronizadas antes e após intervenção", "trimestral"⟩]
      | "DDP" => [⟨"Tempo médio para diagnóstico", 30,
                   "Cálculo do tempo em dias entre primeira consulta e conclusão diagnóstica", "mensal"⟩]
      | _ => [])

/-- The static phase table of `_generate_project_timeline`
(lines 722-765): name, optional preset start month, duration and
deliverables. -/
def timelinePhaseData (timeline_months : ℕ) : List (String × Option ℕ × ℕ × List String) :=
  [("Planejamento e Preparação", some 1, max 2 (timeline_months / 8),
    ["Plano detalhado de execução", "Contratação da equipe",
     "Aquisição inicial de materiais", "Estabelecimento de parcerias"]),
   ("Implementação - Fase I", none, timeline_months / 3,
    ["Início dos atendimentos", "Capacitação da equipe",
     "Implementação de protocolos", "Relatório de implantação"]),
   ("Desenvolvimento - Fase II", none, timeline_months / 3,
    ["Expansão dos atendimentos", "Avaliação de resultados parciais",
     "Ajustes metodológicos", "Relatório de progresso"]),
   ("Consolidação - Fase III", none, timeline_months / 4,
    ["Atingimento das metas", "Avaliação de impacto",
     "Preparação para sustentabilidade", "Relatório final"])]

/-- The phase loop of `_generate_project_timeline` (lines 767-785): a
missing start month defaults to the running month, the stored end month
is clamped to the requested duration, and the loop breaks when the next
running month exceeds the duration. -/
def timelineLoop (timeline_months : ℕ) :
    List (String × Option ℕ × ℕ × List String) → ℕ → List ProjectTimelineCreate
  | [], _ => []
  | (name, startOpt, dur, deliv) :: rest, current_month =>
      let start := startOpt.getD current_month
      let end_month := start + dur - 1
      ⟨name, start, min end_month timeline_months, deliv⟩ ::
        (if end_month + 1 > timeline_months then []
         else timelineLoop timeline_months rest (end_month + 1))

/-- The function `_generate_project_timeline` of
`ai-service-enhanced.py` (lines 718-785). -/
def generateProjectTimeline (timeline_months : ℕ) : List ProjectTimelineCreate :=
  timelineLoop timeline_months (timelinePhaseData timeline_months) 1

/-- The function `_validate_project_compliance` (lines 787-841): errors
are appended in source order; the budget checks run only when the item
list is non-empty and the coordinator check only when the team list is
non-empty; overall validity means the error list is empty. -/
def validateProjectCompliance (p : ProjectCreate) : ValidationResult :=
  let errors :=
    (if p.justification.length < 500 then
       ["Justificativa deve ter pelo menos 500 caracteres"] else [])
    ++ (if p.specific_objectives.length < 3 then
          ["Mínimo de 3 objetivos específicos"] else [])
    ++ (if p.timeline_months < 6 then
          ["Cronograma deve ter pelo menos 6 meses"] else [])
    ++ (if 48 < p.timeline_months then
          ["Cronograma não pode exceder 48 meses"] else [])
    ++ (if !p.budget_items.isEmpty then
          (if 1/100 < |itemsTotal p.budget_items - p.budget_total| then
             ["Soma dos itens não confere com total do orçamento"] else [])
          ++ (if !(p.budget_items.any (fun it => it.category == "auditoria")) then
                ["Auditoria independente é obrigatória"] else [])
        else [])
    ++ (if !p.team_members.isEmpty then
          (if (p.team_members.filter
                (fun m => containsSub "coordenador" m.role.toLower)).isEmpty then
             ["Projeto deve ter um coordenador"] else [])
        else [])
  { is_valid := errors.isEmpty, errors := errors, warnings := [] }

/-- The ten boolean conditions of `_calculate_compliance_score`
(lines 843-870), in source order. -/
def complianceChecks (p : ProjectCreate) (v : ValidationResult) : List Bool :=
  [decide (500 ≤ p.justification.length),
   decide (3 ≤ p.specific_objectives.length),
   decide (6 ≤ p.timeline_months ∧ p.timeline_months ≤ 48),
   !p.budget_items.isEmpty && p.budget_items.any (fun it => it.category == "auditoria"),
   !p.team_members.isEmpty
     && p.team_members.any (fun m => containsSub "coordenador" m.role.toLower),
   !p.goals.isEmpty && decide (2 ≤ p.goals.length),
   !p.timeline.isEmpty && decide (3 ≤ p.timeline.length),
   v.is_valid,
   decide (0 < p.budget_total),
   !(p.general_objective == "") && decide (50 ≤ p.general_objective.length)]

/-- The function `_calculate_compliance_score` (lines 843-870): ten
fixed checks incremented one by one, divided by the fixed check count. -/
def calculateComplianceScore (p : ProjectCreate) (v : ValidationResult) : ℚ :=
  let total_checks : ℚ := 10
  let passed_checks : ℚ :=
    (if 500 ≤ p.justification.length then 1 else 0)
    + (if 3 ≤ p.specific_objectives.length then 1 else 0)
    + (if 6 ≤ p.timeline_months ∧ p.timeline_months ≤ 48 then 1 else 0)
    + (if !p.budget_items.isEmpty
          && p.budget_items.any (fun it => it.category == "auditoria") then 1 else 0)
    + (if !p.team_members.isEmpty
          && p.team_members.any (fun m => containsSub "coordenador" m.role.toLower)
        then 1 else 0)
    + (if !p.goals.isEmpty && decide (2 ≤ p.goals.length) then 1 else 0)
    + (if !p.timeline.isEmpty && decide (3 ≤ p.timeline.length) then 1 else 0)
    + (if v.is_valid then 1 else 0)
    + (if 0 < p.budget_total then 1 else 0)
    + (if !(p.general_objective == "") && decide (50 ≤ p.general_objective.length)
        then 1 else 0)
  passed_checks / total_checks

/-- The function `_calculate_confidence_score` (lines 872-886): base
0.8 plus four 0.05 completeness increments, capped at 1.0. -/
def calculateConfidenceScore (p : ProjectCreate) : ℚ :=
  let confidence : ℚ := 8/10
  let confidence := if !p.team_members.isEmpty && decide (3 ≤ p.team_members.length)
    then confidence + 5/100 else confidence
  let confidence := if !p.budget_items.isEmpty && decide (5 ≤ p.budget_items.length)
    then confidence + 5/100 else confidence
  let confidence := if !p.goals.isEmpty && decide (2 ≤ p.goals.length)
    then confidence + 5/100 else confidence
  let confidence := if !p.timeline.isEmpty && decide (4 ≤ p.timeline.length)
    then confidence + 5/100 else confidence
  min confidence 1

/-- The function `_generate_recommendations` (lines 888-929). -/
def generateRecommendations (p : ProjectCreate) (v : ValidationResult)
    (code : String) : List String :=
  (if !v.errors.isEmpty then
     ["Corrija os seguintes erros: " ++ String.intercalate ", " v.errors] else [])
  ++ (if p.justification.length < 1000 then
        ["Considere expandir a justificativa com mais dados epidemiológicos locais"] else [])
  ++ (if p.target_audience == "" then
        ["Detalhe melhor o público-alvo e critérios de inclusão/exclusão"] else [])
  ++ (if !p.budget_items.isEmpty then
        (if (itemsOfCategory "captacao_recursos" p.budget_items).isEmpty then
           ["Considere incluir recursos para captação (até 5% do total)"] else [])
      else [])
  ++ (match code with
      | "QSS" => ["Inclua cronograma de adequações baseado na NBR 9050"]
      | "RPD" => ["Considere parcerias com universidades para estágios"]
      | "DDP" => ["Estabeleça protocolos de diagnóstico padronizados"]
      | _ => [])

/-- The function `_find_similar_projects` (lines 931-945): a simulated
single-entry result scaled from the project budget. -/
def findSimilarProjects (p : ProjectCreate) : List SimilarProject :=
  [⟨"proj_001", "Projeto similar na mesma área", "Instituição de referência",
    85/100, p.budget_total * (11/10), 90/100⟩]

/-- The function `_get_priority_area_id` (lines 947-953). -/
def getPriorityAreaId : String → ℕ
  | "QSS" => 1
  | "RPD" => 2
  | "DDP" => 3
  | "EPD" => 4
  | "ITR" => 5
  | "APE" => 6
  | "TAA" => 7
  | "APC" => 8
  | _ => 1

/-- The `budget_items` pydantic validator of `ProjectCreate`
(`schemas.py` lines 218-239): runs only on a non-empty item list;
checks the 0.01 sum tolerance, the mandatory audit item and the
fundraising cap. -/
def validateBudgetConsistency (items : List BudgetItem) (budget_total : ℚ) :
    Except GenError Unit :=
  if !items.isEmpty then
    if 1/100 < |itemsTotal items - budget_total| then .error .budgetSumMismatch
    else if !(items.any (fun it => it.category == "auditoria")) then .error .auditMissing
    else
      let captacao := itemsOfCategory "captacao_recursos" items
      if !captacao.isEmpty
          && decide (min (budget_total * (5/100)) 50000 < itemsTotal captacao) then
        .error .captacaoExceeded
      else .ok ()
  else .ok ()

/-- The `timeline` pydantic validator of `ProjectCreate` (`schemas.py`
lines 241-248): the largest phase end month may not exceed the project
duration. -/
def validateTimelineConsistency (timeline : List ProjectTimelineCreate)
    (timeline_months : ℕ) : Except GenError Unit :=
  if !timeline.isEmpty then
    if timeline_months < (timeline.map ProjectTimelineCreate.end_month).foldr max 0 then
      .error .timelineExceedsDuration
    else .ok ()
  else .ok ()

/-- Construction of `ProjectCreate` including its two pydantic
validators (the per-field length bounds of `schemas.py` are not
modelled; they concern only narrative sizes). -/
def mkProjectCreate (base : ProjectStructureParts) (code : String)
    (budget_total : ℚ) (team : List ProjectTeamCreate) (items : List BudgetItem)
    (goals : List ProjectGoalCreate) (timeline : List ProjectTimelineCreate) :
    Except GenError ProjectCreate :=
  match validateBudgetConsistency items budget_total with
  | .error e => .error e
  | .ok _ =>
    match validateTimelineConsistency timeline base.timeline_months with
    | .error e => .error e
    | .ok _ =>
      .ok { title := base.title, description := base.description,
            field_of_action := "medico_assistencial",
            priority_area_id := getPriorityAreaId code,
            general_objective := base.general_objective,
            specific_objectives := base.specific_objectives,
            justification := base.justification,
            target_audience := base.target_audience,
            methodology := base.methodology,
            expected_results := base.expected_results,
            budget_total := budget_total,
            timeline_months := base.timeline_months,
            team_members := team, budget_items := items,
            goals := goals, timeline := timeline }

/-- The orchestrator `generate_project_from_guidelines`
(`ai-service-enhanced.py` lines 235-320).  The `rng` parameter stands
for the process-wide random stream available to a generation service;
`ai-service-enhanced.py` imports no random module and never consults
it, which the determinism theorem below makes explicit. -/
def generateProjectFromGuidelines (rng : ℕ → ℚ) (inst : InstitutionData)
    (req : ProjectRequirements) (code : String) :
    Except GenError AIProjectResponse :=
  if !(priorityAreaCodes.contains code) then .error (.unknownArea code)
  else
    let budget_total := req.budget_total.getD 500000
    let base := generateProjectStructure inst req code
    let team := generateProjectTeam code budget_total
    let items := generateProjectBudget (enhancedDist code) budget_total
    let goals := generateProjectGoals code
    let timeline := generateProjectTimeline base.timeline_months
    match mkProjectCreate base code budget_total team items goals timeline with
    | .error e => .error e
    | .ok project =>
      let v := validateProjectCompliance project
      .ok { project := project,
            confidence_score := calculateConfidenceScore project,
            compliance_score := calculateComplianceScore project v,
            recommendations := generateRecommendations project v code,
            validation_results := v,
            similar_projects := findSimilarProjects project }

end Enhanced

namespace Engine

/-- The function `_generate_project_timeline` of `backend/ai/engine.py`
(lines 1404-1468): three fixed phases, with a compressed variant for
durations of at most 12 months.  Months are integers as in the
source. -/
def engineTimeline (timeline_months : ℤ) : List (String × ℤ × ℤ × List String) :=
  if timeline_months ≤ 12 then
    [("Planejamento e Início", 1, 2, ["Contratação", "Aquisições", "Capacitação"]),
     ("Execução", 3, timeline_months - 1, ["Atendimentos", "Atividades", "Monitoramento"]),
     ("Finalização", timeline_months, timeline_months, ["Relatório final", "Prestação de contas"])]
  else
    [("Planejamento e Preparação", 1, 3,
      ["Contratação da equipe técnica", "Aquisição de equipamentos",
       "Adequação da infraestrutura", "Capacitação da equipe"]),
     ("Implementação das Atividades", 4, timeline_months - 3,
      ["Início dos atendimentos", "Desenvolvimento das atividades principais",
       "Acompanhamento dos beneficiários", "Relatórios parciais"]),
     ("Monitoramento e Avaliação", timeline_months - 2, timeline_months,
      ["Avaliação final dos resultados", "Relatório final do projeto",
       "Prestação de contas", "Disseminação dos resultados"])]

end Engine

/-- A chained well-formedness check for a phase list given the project
duration `d`: each phase must start at the expected month (1 for the
first phase, previous end + 1 afterwards), end no earlier than it
starts, and end within the duration. -/
def phasesChain (d : ℤ) : ℤ → List (ℤ × ℤ) → Bool
  | _, [] => true
  | expected, (s, e) :: rest =>
      (s == expected) && decide (s ≤ e) && decide (e ≤ d) && phasesChain d (e + 1) rest

/-- Well-formed timeline: non-empty, first phase starts at month 1,
phases contiguous, each within `[1, d]`. -/
def phasesOk (d : ℤ) (ps : List (ℤ × ℤ)) : Bool :=
  !ps.isEmpty && phasesChain d 1 ps

/-- Start/end pairs of the enhanced-service timeline. -/
def enhancedTimelinePairs (d : ℕ) : List (ℤ × ℤ) :=
  (Enhanced.generateProjectTimeline d).map
    (fun p => ((p.start_month : ℤ), (p.end_month : ℤ)))

/-- Start/end pairs of the engine timeline. -/
def engineTimelinePairs (d : ℤ) : List (ℤ × ℤ) :=
  (Engine.engineTimeline d).map (fun ph => (ph.2.1, ph.2.2.1))

namespace Enhanced

/-- A concrete distribution map lacking the `auditoria` key (the
fallback map of `_generate_project_budget` without its audit entry),
used to evaluate the normalization step on the branch that injects the
audit fraction. -/
def sampleNoAuditDist : List (String × ℚ) :=
  [("pessoal", 45/100), ("material_consumo", 20/100), ("material_permanente", 15/100),
   ("despesas_administrativas", 10/100), ("reformas", 5/100)]

/-- A concrete assembled project with no budget items and no team
members whose remaining compliance checks pass. -/
def exampleEmptyProject : ProjectCreate :=
  { title := "Projeto Exemplo", description := "Projeto de exemplo",
    field_of_action := "medico_assistencial", priority_area_id := 1,
    general_objective := "Objetivo geral",
    specific_objectives := ["Objetivo 1", "Objetivo 2", "Objetivo 3"],
    justification := String.mk (List.replicate 600 'j'),
    target_audience := "", methodology := "", expected_results := "",
    budget_total := 100000, timeline_months := 24,
    team_members := [], budget_items := [], goals := [], timeline := [] }

end Enhanced

namespace Engine

/-- The closed 8-value key set of the engine dictionary
`self.priority_areas` (`backend/ai/engine.py`,
`_initialize_priority_areas_knowledge`). -/
def priorityAreaCodes : List String :=
  ["QSS", "RPD", "DDP", "EPD", "ITR", "APE", "TAA", "APC"]

/-- The `name` field of each engine area profile. -/
def areaName : String → String
  | "QSS" => "Qualificação de serviços de saúde"
  | "RPD" => "Reabilitação/habilitação da pessoa com deficiência"
  | "DDP" => "Diagnóstico diferencial da pessoa com deficiência"
  | "EPD" => "Identificação e estimulação precoce das deficiências"
  | "ITR" => "Inserção e reinserção no trabalho"
  | "APE" => "Apoio à saúde por meio de práticas esportivas"
  | "TAA" => "Terapia assistida por animais"
  | "APC" => "Apoio à saúde por produção artística e cultural"
  | _ => ""

/-- The `typical_methodologies` list of each engine area profile. -/
def areaMethodologies : String → List String
  | "QSS" => ["Avaliação de barreiras arquitetônicas",
              "Projeto de adequação baseado na NBR 9050",
              "Implementação faseada das adequações",
              "Treinamento da equipe para atendimento acessível"]
  | "RPD" => ["Avaliação multidisciplinar", "Plano terapêutico individualizado",
              "Atendimento individual e em grupo", "Reavaliações periódicas",
              "Orientação familiar"]
  | "DDP" => ["Protocolo de avaliação multidisciplinar",
              "Aplicação de instrumentos padronizados",
              "Análise de exames complementares", "Discussão de casos em equipe",
              "Elaboração de relatório diagnóstico"]
  | "EPD" => ["Protocolo de triagem e avaliação", "Programa de estimulação precoce",
              "Atendimento domiciliar quando necessário",
              "Grupos de orientação parental", "Rede de referência e contrarreferência"]
  | "ITR" => ["Avaliação funcional para o trabalho", "Plano individualizado de inserção",
              "Capacitação profissional adaptada", "Parcerias com empresas",
              "Seguimento longitudinal"]
  | "APE" => ["Avaliação médica e funcional", "Classificação funcional esportiva",
              "Programa de condicionamento físico", "Treinamento técnico especializado",
              "Acompanhamento multidisciplinar"]
  | "TAA" => ["Protocolo de seleção e avaliação", "Sessões individuais e grupais",
              "Objetivos terapêuticos específicos", "Registro sistemático de progressos",
              "Cuidados veterinários especializados"]
  | "APC" => ["Avaliação de interesses e habilidades",
              "Oficinas especializadas e adaptadas",
              "Produção e apresentação de trabalhos", "Eventos culturais inclusivos",
              "Registro e documentação das atividades"]
  | _ => []

/-- The `expected_results` list of each engine area profile. -/
def areaExpectedResults : String → List String
  | "QSS" => ["Melhoria da acessibilidade física", "Aumento da satisfação dos usuários",
              "Qualificação do atendimento", "Conformidade com normas de acessibilidade"]
  | "RPD" => ["Melhoria da funcionalidade",
              "Maior independência nas atividades de vida diária",
              "Redução de limitações funcionais", "Melhoria da qualidade de vida"]
  | "DDP" => ["Diagnóstico preciso e precoce", "Encaminhamento adequado para tratamento",
              "Orientação familiar qualificada", "Redução do tempo para diagnóstico"]
  | "EPD" => ["Identificação precoce de deficiências",
              "Melhoria do desenvolvimento infantil", "Capacitação das famílias",
              "Prevenção de deficiências secundárias"]
  | "ITR" => ["Inserção no mercado de trabalho", "Melhoria da renda familiar",
              "Autonomia e inclusão social", "Conscientização empresarial"]
  | "APE" => ["Melhoria do condicionamento físico",
              "Desenvolvimento de habilidades esportivas", "Socialização e inclusão",
              "Melhoria da autoestima e qualidade de vida"]
  | "TAA" => ["Melhoria da comunicação", "Redução de ansiedade e depressão",
              "Desenvolvimento de habilidades sociais", "Melhoria da autoestima"]
  | "APC" => ["Desenvolvimento de habilidades artísticas",
              "Expressão criativa e emocional", "Socialização e inclusão cultural",
              "Melhoria da autoestima e qualidade de vida"]
  | _ => []

/-- The `target_beneficiaries` description of each engine area profile. -/
def areaTargetBeneficiaries : String → String
  | "QSS" => "Pessoas com deficiência atendidas no estabelecimento"
  | "RPD" => "Pessoas com deficiência física, intelectual, auditiva ou visual"
  | "DDP" => "Pessoas com suspeita de deficiência ou deficiência não diagnosticada"
  | "EPD" => "Crianças de 0 a 3 anos com risco ou sinais de deficiência"
  | "ITR" => "Pessoas com deficiência em idade produtiva"
  | "APE" => "Pessoas com deficiência de todas as idades interessadas em atividade física"
  | "TAA" => "Pessoas com deficiência que se beneficiem da TAA"
  | "APC" => "Pessoas com deficiência interessadas em atividades artísticas e culturais"
  | _ => ""

/-- The institution dict of the engine pipeline; the engine indexes
`name`, `city` and `state` directly (no defaults). -/
structure EngineInstitution where
  name : String
  city : String
  state : String
  deriving Repr, DecidableEq

/-- The requirements dict of the engine pipeline; `budget_total` and
`timeline_months` are indexed directly, `target_beneficiaries` is read
through `.get` with per-site defaults. -/
structure EngineRequirements where
  budget_total : ℚ
  timeline_months : ℤ
  target_beneficiaries : Option ℕ := none
  deriving Repr, DecidableEq

/-- The draws the engine pipeline takes from the global `random`
module, made explicit: one index for `random.choice` over the title
templates, the value of `random.randint(3, min(5, len(bank)))`, index
streams driving the three `random.sample` calls (specific objectives,
area recommendations, general recommendations), and the stream of
`random.uniform` salary draws of the team loop.  On a real execution
every index is in range for the list it samples from. -/
structure EngineRand where
  title_choice : ℕ
  objectives_count : ℕ
  objectives_pick : ℕ → ℕ
  salary_draw : ℕ → ℚ
  rec_area_pick : ℕ → ℕ
  rec_general_pick : ℕ → ℕ

/-- Sampling without replacement driven by an index stream: the model
of `random.sample(l, k)`, which picks an element, removes it and
repeats.  An out-of-range index (impossible on a real draw) stops the
sampling. -/
def sampleIdx (pick : ℕ → ℕ) : ℕ → ℕ → List String → List String
  | _, 0, _ => []
  | t, Nat.succ k, l =>
    match l.get? (pick t) with
    | some x => x :: sampleIdx pick (t + 1) k (l.eraseIdx (pick t))
    | none => []

/-- The `title_templates` dict of `_generate_project_title`
(`backend/ai/engine.py` lines 613-664), with its `.get` fallback. -/
def titleTemplates (code : String) (inst : EngineInstitution) : List String :=
  match code with
  | "QSS" => ["Qualificação e Adequação de Serviços de Saúde para Pessoas com Deficiência - " ++ inst.name,
              "Projeto de Acessibilidade e Qualificação de Serviços - " ++ inst.city ++ "/" ++ inst.state,
              "Adequação Arquitetônica e Tecnológica para Atendimento Inclusivo"]
  | "RPD" => ["Centro de Reabilitação e Habilitação Integral da Pessoa com Deficiência",
              "Programa de Reabilitação Multidisciplinar - " ++ inst.name,
              "Serviços Especializados em Reabilitação da Pessoa com Deficiência"]
  | "DDP" => ["Centro de Diagnóstico Diferencial e Avaliação Especializada",
              "Programa de Diagnóstico Precoce e Diferencial - " ++ inst.city,
              "Serviço de Avaliação Diagnóstica Multidisciplinar"]
  | "EPD" => ["Programa de Estimulação Precoce e Desenvolvimento Infantil",
              "Centro de Intervenção Precoce - " ++ inst.name,
              "Identificação e Estimulação Precoce de Deficiências - 0 a 3 anos"]
  | "ITR" => ["Programa de Inserção Profissional da Pessoa com Deficiência",
              "Centro de Habilitação e Reabilitação Profissional",
              "Inclusão no Trabalho: Capacitação e Inserção Profissional"]
  | "APE" => ["Programa de Atividades Físicas e Esportivas Adaptadas",
              "Centro de Esportes Paralímpicos - " ++ inst.city,
              "Saúde através do Esporte Adaptado"]
  | "TAA" => ["Programa de Terapia Assistida por Animais",
              "Centro de TAA - Terapia e Atividades com Animais",
              "Projeto Cão-Guia e Terapia Assistida"]
  | "APC" => ["Programa de Arte, Cultura e Saúde da Pessoa com Deficiência",
              "Centro Cultural Inclusivo - " ++ inst.name,
              "Expressão Artística e Cultural como Terapia"]
  | c => ["Projeto " ++ areaName c]

/-- The function `_generate_project_title`: `random.choice` over the
template list, modelled through the drawn index. -/
def generateProjectTitle (r : EngineRand) (code : String)
    (inst : EngineInstitution) : String :=
  (titleTemplates code inst).getD r.title_choice ""

/-- The `objectives` dict of `_generate_general_objective`
(lines 666-690) with its `.get` fallback. -/
def generateGeneralObjective (code : String) (inst : EngineInstitution) : String :=
  match code with
  | "QSS" => "Qualificar os serviços de saúde da " ++ inst.name ++ " através da adequação da ambiência e acessibilidade, proporcionando atendimento inclusivo e de qualidade às pessoas com deficiência da região de " ++ inst.city ++ "/" ++ inst.state ++ ", em conformidade com as normas técnicas vigentes e diretrizes do SUS."
  | "RPD" => "Desenvolver ações especializadas de reabilitação e habilitação para pessoas com deficiência física, intelectual, auditiva e visual, promovendo a máxima funcionalidade, independência e qualidade de vida dos usuários atendidos pela " ++ inst.name ++ ", através de abordagem multidisciplinar e baseada em evidências científicas."
  | "DDP" => "Estabelecer serviço especializado de diagnóstico diferencial para pessoas com deficiência, oferecendo avaliação multidisciplinar abrangente e precisa que permita o diagnóstico precoce, a orientação adequada às famílias e o encaminhamento apropriado para serviços de habilitação e reabilitação na região de " ++ inst.city ++ "/" ++ inst.state ++ "."
  | "EPD" => "Implementar programa de identificação e estimulação precoce para crianças de 0 a 3 anos com risco ou sinais de deficiência, promovendo o desenvolvimento integral através de intervenção especializada, orientação familiar e articulação com a rede de cuidados, visando prevenir ou minimizar limitações funcionais futuras."
  | "ITR" => "Promover a inserção, reinserção e adaptação de pessoas com deficiência no mercado de trabalho, através de avaliação funcional, capacitação profissional, adaptação de postos de trabalho e tecnologia assistiva, contribuindo para a autonomia econômica e inclusão social dos usuários da " ++ inst.name ++ "."
  | "APE" => "Desenvolver programa de atividades físicas e esportivas adaptadas para pessoas com deficiência, promovendo saúde, bem-estar, condicionamento físico e habilidades esportivas, através de modalidades paradesportivas e atividades recreativas inclusivas, contribuindo para a melhoria da qualidade de vida e inclusão social."
  | "TAA" => "Implementar programa de Terapia Assistida por Animais como recurso terapêutico complementar para pessoas com deficiência, promovendo benefícios físicos, emocionais, cognitivos e sociais através da interação estruturada e supervisionada com animais devidamente treinados e acompanhados por equipe multidisciplinar especializada."
  | "APC" => "Desenvolver atividades artísticas e culturais adaptadas como estratégia de apoio à saúde da pessoa com deficiência, promovendo expressão criativa, desenvolvimento de habilidades, socialização e melhoria da autoestima através de oficinas de arte, música, teatro, dança e produção cultural inclusiva."
  | c => "Desenvolver ações de " ++ areaName c ++ " para pessoas com deficiência."

/-- The `objectives_bank` dict of `_generate_specific_objectives`
(lines 692-776), with its `.get` fallback. -/
def objectivesBank : String → List String
  | "QSS" => ["Adequar a infraestrutura física do estabelecimento de saúde conforme normas de acessibilidade NBR 9050",
              "Adquirir equipamentos e tecnologias assistivas para qualificar o atendimento à pessoa com deficiência",
              "Implementar sistema de sinalização visual e tátil adequado para orientação de pessoas com deficiência sensorial",
              "Capacitar a equipe multidisciplinar para atendimento inclusivo e humanizado",
              "Desenvolver protocolos de atendimento específicos para cada tipo de deficiência",
              "Criar ambiente acolhedor e adaptado para familiares e acompanhantes"]
  | "RPD" => ["Realizar avaliação funcional multidisciplinar para elaboração de planos terapêuticos individualizados",
              "Desenvolver programa de fisioterapia especializada com técnicas avançadas de reabilitação",
              "Implementar serviço de terapia ocupacional para desenvolvimento de habilidades de vida diária",
              "Oferecer atendimento fonoaudiológico para reabilitação da comunicação e deglutição",
              "Prescrever e adaptar tecnologias assistivas conforme necessidades individuais",
              "Promover orientação familiar para continuidade do tratamento no domicílio",
              "Estabelecer programa de reintegração social e comunitária"]
  | "DDP" => ["Realizar avaliação médica especializada com protocolos diagnósticos padronizados",
              "Implementar avaliação neuropsicológica e cognitiva abrangente",
              "Desenvolver protocolo de avaliação multidisciplinar para diagnóstico diferencial",
              "Oferecer orientação genética quando indicada e solicitação de exames complementares",
              "Elaborar laudos diagnósticos detalhados e relatórios técnicos especializados",
              "Promover discussão de casos complexos em equipe multidisciplinar",
              "Orientar famílias sobre diagnóstico, prognóstico e encaminhamentos necessários"]
  | "EPD" => ["Implementar protocolo de triagem e identificação precoce de sinais de risco para deficiência",
              "Desenvolver programa de estimulação precoce individualizada para crianças de 0 a 3 anos",
              "Oferecer atendimento multidisciplinar especializado em desenvolvimento infantil",
              "Capacitar famílias e cuidadores em técnicas de estimulação no domicílio",
              "Estabelecer rede de referência e contrarreferência com serviços de saúde materno-infantil",
              "Realizar acompanhamento longitudinal do desenvolvimento das crianças atendidas",
              "Promover ações de prevenção de deficiências secundárias e complicações"]
  | "ITR" => ["Realizar avaliação funcional para capacidade laboral e potencial profissional",
              "Desenvolver programa de capacitação profissional adaptado às habilidades individuais",
              "Implementar serviço de adaptação de postos de trabalho e prescrição de tecnologia assistiva",
              "Estabelecer parcerias com empresas para colocação profissional inclusiva",
              "Oferecer acompanhamento psicológico e social durante processo de inserção",
              "Promover conscientização empresarial sobre inclusão da pessoa com deficiência",
              "Realizar seguimento pós-inserção para garantir adaptação no trabalho"]
  | "APE" => ["Realizar avaliação funcional e médica para prescrição segura de atividade física",
              "Desenvolver programa de condicionamento físico adaptado às necessidades individuais",
              "Implementar modalidades paradesportivas com treinamento técnico especializado",
              "Oferecer classificação funcional esportiva conforme regulamentações internacionais",
              "Promover eventos esportivos inclusivos e competições adaptadas",
              "Capacitar profissionais em educação física adaptada e esporte paralímpico",
              "Desenvolver programa de esporte recreativo para diferentes faixas etárias"]
  | "TAA" => ["Implementar protocolo de avaliação para indicação e contraindicação de TAA",
              "Desenvolver programa de sessões terapêuticas estruturadas com animais treinados",
              "Capacitar equipe multidisciplinar em técnicas de terapia assistida por animais",
              "Estabelecer protocolos de higiene, segurança e bem-estar animal",
              "Oferecer atividades grupais e individuais conforme objetivos terapêuticos",
              "Realizar registro sistemático de progressos e evolução terapêutica",
              "Promover integração da TAA com outras modalidades terapêuticas"]
  | "APC" => ["Implementar oficinas de artes visuais adaptadas às diferentes deficiências",
              "Desenvolver programa de musicoterapia com instrumentos adaptados",
              "Oferecer atividades de teatro e expressão corporal inclusivas",
              "Promover oficinas de literatura e contação de histórias acessíveis",
              "Realizar eventos culturais inclusivos e mostras artísticas",
              "Capacitar arte-terapeutas e educadores em técnicas adaptadas",
              "Desenvolver produção cultural com participação ativa das pessoas com deficiência"]
  | _ => []

/-- The function `_generate_specific_objectives`: a random subset of
the bank of size `randint(3, min(5, len(bank)))`, modelled through the
drawn count and index stream. -/
def generateSpecificObjectives (r : EngineRand) (code : String) : List String :=
  sampleIdx r.objectives_pick 0 r.objectives_count (objectivesBank code)

/-- Stand-in for the Python money formatting (thousands separators, two
decimals) used inside the RPD justification template; the exact
rendering is not reproduced, and the text is inert for every property
proved here. -/
def formatBudget (q : ℚ) : String := toString q

/-- The shared `base_context` paragraph of `_generate_justification`
(lines 788-796).  Here and in the per-area templates below, the
indentation whitespace that the Python triple-quoted literals carry on
every line is not reproduced; paragraphs are joined with blank
lines. -/
def justificationBaseContext (inst : EngineInstitution) : String :=
  "A " ++ inst.name ++ ", localizada em " ++ inst.city ++ "/" ++ inst.state ++ ", atua há anos no atendimento às pessoas com deficiência, reconhecendo as necessidades específicas desta população e as lacunas existentes nos serviços especializados da região.\n\nSegundo dados do IBGE (Censo 2010), aproximadamente 23,9% da população brasileira possui algum tipo de deficiência, representando cerca de 45,6 milhões de pessoas. Esta parcela significativa da população necessita de serviços especializados que atendam às suas especificidades, promovendo inclusão, autonomia e qualidade de vida."

/-- The `specific_justifications` dict of `_generate_justification`
(lines 798-936), with its `.get` fallback (the base context) and the
post-hoc 500-character top-up (lines 940-951). -/
def engineGenerateJustification (code : String) (inst : EngineInstitution)
    (req : EngineRequirements) : String :=
  let base := justificationBaseContext inst
  let justification :=
    match code with
    | "QSS" => base ++ "\n\n" ++
        "A qualificação de serviços de saúde para pessoas com deficiência é fundamental para garantir o acesso universal e integral preconizado pelo SUS. Barreiras arquitetônicas, falta de equipamentos adaptados e despreparo profissional constituem obstáculos significativos ao atendimento adequado.\n\n" ++
        "Este projeto visa eliminar essas barreiras através da adequação da ambiência conforme NBR 9050, aquisição de equipamentos especializados e capacitação da equipe. A implementação beneficiará diretamente cerca de " ++ toString (req.target_beneficiaries.getD 500) ++ " pessoas com deficiência mensalmente, melhorando a acessibilidade e qualidade do atendimento oferecido pela instituição.\n\n" ++
        "A relevância do projeto está alinhada com a Política Nacional de Saúde da Pessoa com Deficiência e a Lei Brasileira de Inclusão (13.146/2015), promovendo a eliminação de barreiras e a garantia de direitos fundamentais desta população."
    | "RPD" => base ++ "\n\n" ++
        "A reabilitação e habilitação da pessoa com deficiência constitui processo complexo que exige abordagem multidisciplinar especializada. Dados epidemiológicos indicam que aproximadamente 6,2% da população possui deficiência motora, necessitando de serviços de reabilitação específicos.\n\n" ++
        "A escassez de serviços especializados na região resulta em longas filas de espera e deslocamentos custosos para outras cidades, comprometendo a continuidade do tratamento. Este projeto propõe a implementação de centro de reabilitação multidisciplinar que atenderá cerca de " ++ toString (req.target_beneficiaries.getD 300) ++ " pessoas anualmente.\n\n" ++
        "A metodologia baseada em evidências científicas e a utilização de tecnologias assistivas modernas garantirão resultados efetivos na recuperação funcional e melhoria da qualidade de vida. O investimento de R$ " ++ formatBudget req.budget_total ++ " proporcionará retorno social significativo através da autonomia conquistada pelos usuários."
    | "DDP" => base ++ "\n\n" ++
        "O diagnóstico precoce e preciso da deficiência é fundamental para o desenvolvimento de estratégias terapêuticas eficazes e prevenção de limitações secundárias. Estudos demonstram que a intervenção precoce pode reduzir em até 70% as limitações funcionais futuras.\n\n" ++
        "A ausência de serviços diagnósticos especializados na região resulta em diagnósticos tardios ou imprecisos, comprometendo o prognóstico e o desenvolvimento pleno das pessoas com deficiência. Este projeto estabelecerá centro diagnóstico multidisciplinar capaz de atender " ++ toString (req.target_beneficiaries.getD 200) ++ " casos anuais.\n\n" ++
        "A equipe especializada utilizará protocolos padronizados e instrumentos validados para garantir a precisão diagnóstica. O diagnóstico adequado permitirá encaminhamentos específicos e elaboração de planos terapêuticos individualizados, otimizando os resultados das intervenções."
    | "EPD" => base ++ "\n\n" ++
        "Os primeiros anos de vida são cruciais para o desenvolvimento neurológico e funcional. A identificação e estimulação precoce de deficiências em crianças de 0 a 3 anos pode prevenir ou minimizar limitações futuras, proporcionando melhores oportunidades de desenvolvimento.\n\n" ++
        "Dados da literatura científica indicam que cada real investido em estimulação precoce resulta em economia de sete reais em custos futuros com reabilitação e educação especial. O projeto atenderá aproximadamente " ++ toString (req.target_beneficiaries.getD 150) ++ " crianças anualmente, beneficiando também suas famílias.\n\n" ++
        "A metodologia baseada em neuroplasticidade cerebral e desenvolvimento infantil utilizará técnicas lúdicas e atrativas para estimular habilidades cognitivas, motoras, sensoriais e sociais. O acompanhamento longitudinal garantirá continuidade no desenvolvimento."
    | "ITR" => base ++ "\n\n" ++
        "A inserção da pessoa com deficiência no mercado de trabalho constitui direito fundamental e estratégia essencial para inclusão social e autonomia econômica. Dados do Ministério do Trabalho indicam que apenas 1,8% das vagas formais são ocupadas por pessoas com deficiência, evidenciando a necessidade de programas específicos.\n\n" ++
        "As principais barreiras incluem falta de qualificação profissional, ausência de tecnologia assistiva adequada e preconceito empresarial. Este projeto visa capacitar profissionalmente " ++ toString (req.target_beneficiaries.getD 100) ++ " pessoas com deficiência anualmente, promovendo sua inserção no mercado de trabalho.\n\n" ++
        "A metodologia incluirá avaliação funcional, capacitação profissional, adaptação de postos de trabalho e acompanhamento pós-inserção. Parcerias com empresas locais garantirão oportunidades reais de emprego, contribuindo para o desenvolvimento econômico regional."
    | "APE" => base ++ "\n\n" ++
        "A prática de atividades físicas e esportivas por pessoas com deficiência promove benefícios físicos, psicológicos e sociais significativos. Estudos demonstram redução de 40% nos custos com saúde entre praticantes regulares de atividade física adaptada.\n\n" ++
        "A falta de programas esportivos adaptados e profissionais especializados limita o acesso desta população aos benefícios do exercício físico. Este projeto implementará centro de atividades físicas e esportivas que atenderá " ++ toString (req.target_beneficiaries.getD 250) ++ " pessoas anualmente em diversas modalidades.\n\n" ++
        "A metodologia incluirá avaliação funcional, prescrição individualizada de exercícios, treinamento técnico especializado e preparação para competições. Os benefícios incluem melhoria do condicionamento físico, desenvolvimento de habilidades esportivas, socialização e elevação da autoestima."
    | "TAA" => base ++ "\n\n" ++
        "A Terapia Assistida por Animais (TAA) constitui intervenção terapêutica complementar com evidências científicas robustas de eficácia. Estudos demonstram melhoria significativa na comunicação, redução da ansiedade e desenvolvimento de habilidades sociais em pessoas com deficiência.\n\n" ++
        "A ausência deste recurso terapêutico na região priva as pessoas com deficiência de uma modalidade terapêutica inovadora e eficaz. O projeto implementará programa estruturado de TAA que beneficiará aproximadamente " ++ toString (req.target_beneficiaries.getD 120) ++ " pessoas anualmente.\n\n" ++
        "A metodologia seguirá protocolos internacionais de TAA, utilizando animais devidamente treinados e supervisionados por equipe multidisciplinar. Os objetivos terapêuticos serão individualizados conforme necessidades específicas de cada usuário, garantindo resultados efetivos."
    | "APC" => base ++ "\n\n" ++
        "A arte e a cultura constituem direitos fundamentais e ferramentas poderosas de expressão, comunicação e desenvolvimento humano. Para pessoas com deficiência, as atividades artísticas promovem benefícios terapêuticos, educacionais e sociais únicos.\n\n" ++
        "A escassez de programas culturais inclusivos limita as oportunidades de expressão criativa e participação cultural desta população. Este projeto desenvolverá programa abrangente de atividades artísticas e culturais que atenderá " ++ toString (req.target_beneficiaries.getD 180) ++ " pessoas anualmente em diversas modalidades.\n\n" ++
        "A metodologia incluirá oficinas de artes visuais, musicoterapia, teatro inclusivo, dança adaptada e produção cultural. Os benefícios incluem desenvolvimento de habilidades artísticas, expressão emocional, socialização e melhoria da autoestima, contribuindo para inclusão social e cultural."
    | _ => base
  if justification.length < 500 then
    justification ++ "\n\nA implementação deste projeto está fundamentada nas melhores práticas nacionais e internacionais, seguindo diretrizes do Ministério da Saúde e organizações especializadas. A equipe técnica qualificada e a infraestrutura adequada garantem a execução com qualidade e segurança.\n\nO impacto social esperado transcende os beneficiários diretos, promovendo mudança de paradigma na comunidade local sobre inclusão e direitos da pessoa com deficiência, contribuindo para uma sociedade mais justa e igualitária."
  else justification

/-- The function `_generate_methodology` of the engine
(lines 955-971): fixed text around the bulleted area methodologies. -/
def engineGenerateMethodology (code : String) : String :=
  "A metodologia proposta baseia-se nas melhores práticas científicas para " ++ areaName code ++ ", seguindo protocolos validados e diretrizes técnicas do Ministério da Saúde.\n\nPrincipais etapas metodológicas:\n\n" ++
  String.intercalate "\n" ((areaMethodologies code).map (fun action => "• " ++ action)) ++
  "\n\nA abordagem multidisciplinar garantirá atendimento integral e humanizado, com foco nos resultados funcionais e na satisfação dos usuários. Registros sistemáticos permitirão acompanhamento da evolução e ajustes nos protocolos quando necessário.\n\nA metodologia será continuamente aprimorada através de capacitações da equipe, atualização científica e incorporação de novas tecnologias e evidências."

/-- The function `_generate_expected_results` of the engine
(lines 973-989). -/
def engineGenerateExpectedResults (code : String) : String :=
  "Os resultados esperados com a implementação do projeto incluem:\n\n" ++
  String.intercalate "\n" ((areaExpectedResults code).map (fun result => "• " ++ result)) ++
  "\n\nAdicionalmente, espera-se:\n• Melhoria dos indicadores de qualidade dos serviços\n• Aumento da satisfação dos usuários e familiares\n• Fortalecimento da rede de atenção à pessoa com deficiência\n• Contribuição para o desenvolvimento social e econômico local\n• Formação de profissionais especializados na área\n\nOs resultados serão mensurados através de indicadores específicos e acompanhamento longitudinal dos beneficiários, permitindo avaliação contínua da efetividade das intervenções."

/-- The function `_generate_target_audience` of the engine
(lines 991-1009). -/
def engineGenerateTargetAudience (code : String) : String :=
  "Público-alvo: " ++ areaTargetBeneficiaries code ++
  "\n\nCritérios de inclusão:\n• Residir na região de abrangência do projeto\n• Possuir indicação técnica para o serviço oferecido\n• Estar em condições clínicas estáveis para participação\n• Concordar com os termos de atendimento\n\nCritérios de exclusão:\n• Condições clínicas que impeçam a participação segura\n• Impossibilidade de adesão ao programa proposto\n• Residir fora da área de cobertura sem possibilidade de deslocamento\n\nO atendimento seguirá princípios de equidade, priorizando casos de maior vulnerabilidade social e aqueles com menor acesso a serviços especializados."

/-- The function `_generate_sustainability_plan` of the engine
(lines 1011-1044). -/
def engineGenerateSustainabilityPlan (inst : EngineInstitution) : String :=
  "Plano de Sustentabilidade do Projeto:\n\n1. SUSTENTABILIDADE FINANCEIRA:\n• Busca de financiamento público através de convênios municipais e estaduais\n• Parcerias com empresas locais para apoio contínuo\n• Captação de recursos através de projetos de responsabilidade social\n• Desenvolvimento de serviços autofinanciáveis quando aplicável\n\n2. SUSTENTABILIDADE TÉCNICA:\n• Formação e capacitação contínua da equipe técnica\n• Estabelecimento de protocolos e rotinas estruturadas\n• Criação de banco de dados para acompanhamento dos resultados\n• Parcerias acadêmicas para atualização científica\n\n3. SUSTENTABILIDADE INSTITUCIONAL:\n• Incorporação do projeto ao planejamento estratégico da " ++ inst.name ++ "\n• Fortalecimento da governança e gestão do projeto\n• Estabelecimento de parcerias estratégicas duradouras\n• Advocacy para políticas públicas favoráveis\n\n4. SUSTENTABILIDADE SOCIAL:\n• Engajamento da comunidade local\n• Formação de grupos de apoio e voluntários\n• Desenvolvimento de lideranças entre os usuários\n• Articulação com movimentos sociais da área da deficiência\n\nA sustentabilidade será monitorada através de indicadores específicos e revisão periódica das estratégias implementadas."

/-- The dict returned by `_generate_project_structure` of the engine
(lines 564-611). -/
structure EngineProjectStructure where
  title : String
  description : String
  field_of_action : String
  general_objective : String
  specific_objectives : List String
  justification : String
  target_audience : String
  methodology : String
  expected_results : String
  sustainability_plan : String
  budget_total : ℚ
  timeline_months : ℤ
  deriving Repr, DecidableEq

/-- The function `_generate_project_structure` of the engine: the
narrative generators sequenced and packed into the structure dict. -/
def engineGenerateProjectStructure (r : EngineRand) (code : String)
    (inst : EngineInstitution) (req : EngineRequirements) :
    EngineProjectStructure :=
  { title := generateProjectTitle r code inst,
    description := "Projeto de " ++ areaName code ++ " desenvolvido para " ++ inst.name,
    field_of_action := "medico_assistencial",
    general_objective := generateGeneralObjective code inst,
    specific_objectives := generateSpecificObjectives r code,
    justification := engineGenerateJustification code inst req,
    target_audience := engineGenerateTargetAudience code,
    methodology := engineGenerateMethodology code,
    expected_results := engineGenerateExpectedResults code,
    sustainability_plan := engineGenerateSustainabilityPlan inst,
    budget_total := req.budget_total,
    timeline_months := req.timeline_months }

/-- A goal indicator dict of the engine `_generate_project_goals`
(lines 1470-1640). -/
structure EngineGoal where
  indicator_name : String
  target_value : ℚ
  measurement_method : String
  frequency : String
  deriving Repr, DecidableEq

/-- The `goals_templates` dict of the engine `_generate_project_goals`,
with its `.get` fallback (the empty list). -/
def engineGenerateProjectGoals (code : String) (target_beneficiaries : ℕ) :
    List EngineGoal :=
  match code with
  | "QSS" => [⟨"Número de pessoas atendidas mensalmente", (target_beneficiaries : ℚ),
               "Registro de atendimentos no sistema", "mensal"⟩,
              ⟨"Percentual de satisfação dos usuários", 85,
               "Pesquisa de satisfação trimestral", "trimestral"⟩,
              ⟨"Percentual de adequação de acessibilidade", 100,
               "Checklist de conformidade NBR 9050", "semestral"⟩]
  | "RPD" => [⟨"Número de pessoas em reabilitação", (target_beneficiaries : ℚ),
               "Registro de prontuários", "mensal"⟩,
              ⟨"Percentual de melhoria funcional", 70,
               "Avaliação funcional padronizada", "trimestral"⟩,
              ⟨"Taxa de adesão ao tratamento", 80,
               "Percentual de frequência aos atendimentos", "mensal"⟩]
  | "DDP" => [⟨"Número de diagnósticos realizados", (target_beneficiaries : ℚ),
               "Registro de laudos emitidos", "mensal"⟩,
              ⟨"Tempo médio para diagnóstico (dias)", 30,
               "Cálculo do tempo entre avaliação e laudo", "mensal"⟩,
              ⟨"Percentual de diagnósticos precoces", 60,
               "Análise da idade no momento do diagnóstico", "trimestral"⟩]
  | "EPD" => [⟨"Número de crianças em estimulação precoce", (target_beneficiaries : ℚ),
               "Registro de atendimentos", "mensal"⟩,
              ⟨"Percentual de melhoria do desenvolvimento", 75,
               "Escala de desenvolvimento aplicada", "trimestral"⟩,
              ⟨"Taxa de engajamento familiar", 90,
               "Participação em atividades e orientações", "mensal"⟩]
  | "ITR" => [⟨"Número de pessoas capacitadas", (target_beneficiaries : ℚ),
               "Registro de participantes nos cursos", "trimestral"⟩,
              ⟨"Taxa de inserção no mercado de trabalho", 40,
               "Acompanhamento pós-capacitação", "semestral"⟩,
              ⟨"Percentual de manutenção no emprego", 70,
               "Follow-up após 6 meses da inserção", "semestral"⟩]
  | "APE" => [⟨"Número de praticantes regulares", (target_beneficiaries : ℚ),
               "Frequência nas atividades esportivas", "mensal"⟩,
              ⟨"Melhoria do condicionamento físico", 60,
               "Testes de aptidão física", "trimestral"⟩,
              ⟨"Participação em competições", 20,
               "Número de atletas em competições", "anual"⟩]
  | "TAA" => [⟨"Número de pessoas em TAA", (target_beneficiaries : ℚ),
               "Registro de sessões de TAA", "mensal"⟩,
              ⟨"Melhoria da comunicação", 65,
               "Avaliação da comunicação pré/pós", "trimestral"⟩,
              ⟨"Redução de ansiedade", 50,
               "Escala de avaliação de ansiedade", "trimestral"⟩]
  | "APC" => [⟨"Número de participantes nas oficinas", (target_beneficiaries : ℚ),
               "Lista de presença nas atividades", "mensal"⟩,
              ⟨"Produções artísticas realizadas", 50,
               "Registro de obras/apresentações produzidas", "trimestral"⟩,
              ⟨"Melhoria da autoestima", 70,
               "Escala de autoestima aplicada", "semestral"⟩]
  | _ => []

/-- The merged `complete_project` dict of the engine orchestrator
(lines 522-529): the structure fields plus the generated team, budget,
timeline and goals. -/
structure EngineProject where
  title : String
  description : String
  field_of_action : String
  general_objective : String
  specific_objectives : List String
  justification : String
  target_audience : String
  methodology : String
  expected_results : String
  sustainability_plan : String
  budget_total : ℚ
  timeline_months : ℤ
  team_members : List TeamMember
  budget_items : List BudgetItem
  timeline : List (String × ℤ × ℤ × List String)
  goals : List EngineGoal
  deriving Repr, DecidableEq

/-- The validation dict built by the engine
`_validate_project_compliance` (lines 1642-1737). -/
structure EngineValidation where
  is_valid : Bool
  errors : List String
  warnings : List String
  checks_performed : List String
  deriving Repr, DecidableEq

/-- The engine `_validate_project_compliance`: eight fixed checks in
source order; errors and warnings are appended as in the source and the
validity flag ends up false exactly when an error was appended. -/
def engineValidateProjectCompliance (p : EngineProject) : EngineValidation :=
  let errors :=
    (if p.justification.length < 500 then
       ["Justificativa deve ter pelo menos 500 caracteres"] else [])
    ++ (if p.specific_objectives.length < 3 then
          ["Deve haver pelo menos 3 objetivos específicos"] else [])
    ++ (if p.timeline_months < 6 then
          ["Prazo mínimo do projeto é 6 meses"] else [])
    ++ (if 48 < p.timeline_months then
          ["Prazo máximo do projeto é 48 meses"] else [])
    ++ (if !(p.budget_items.any (fun it => it.category == "auditoria")) then
          ["Orçamento deve incluir item de auditoria independente"] else [])
    ++ (if !(itemsOfCategory "captacao_recursos" p.budget_items).isEmpty
           && decide (min 50000 (p.budget_total * (5/100))
               < itemsTotal (itemsOfCategory "captacao_recursos" p.budget_items)) then
          ["Captação de recursos não pode exceder 5% do orçamento total ou R$ 50,000.00"]
        else [])
    ++ (if 100 < |itemsTotal p.budget_items - p.budget_total| then
          ["Soma dos itens orçamentários deve ser igual ao orçamento total"] else [])
  let warnings :=
    (if p.team_members.length < 2 then
       ["Projeto deveria ter pelo menos 2 profissionais na equipe"] else [])
    ++ (if p.goals.length < 2 then
          ["Projeto deveria ter pelo menos 2 metas/indicadores"] else [])
  { is_valid := errors.isEmpty, errors := errors, warnings := warnings,
    checks_performed :=
      ["Tamanho mínimo da justificativa", "Número mínimo de objetivos específicos",
       "Prazo do projeto", "Auditoria independente obrigatória",
       "Limites de captação de recursos", "Composição da equipe técnica",
       "Consistência orçamentária", "Metas e indicadores"] }

/-- The engine `_calculate_compliance_score` (lines 1739-1777): base
1.0 penalized 0.15 per error and 0.05 per warning (floored at 0), plus
three 0.05 bonuses, capped at 1.0. -/
def engineCalculateComplianceScore (p : EngineProject) (v : EngineValidation) : ℚ :=
  if v.checks_performed.length = 0 then 0
  else
    let final_score :=
      max 0 (1 - (v.errors.length : ℚ) * (15/100) - (v.warnings.length : ℚ) * (5/100))
    let bonus : ℚ :=
      (if !(p.sustainability_plan == "") && decide (200 < p.sustainability_plan.length)
        then 5/100 else 0)
      + (if !(p.methodology == "") && decide (300 < p.methodology.length)
          then 5/100 else 0)
      + (if 4 ≤ p.team_members.length then 5/100 else 0)
    min 1 (final_score + bonus)

/-- The engine `_calculate_confidence_score` (lines 1779-1828): the
weighted mean of five completeness factors, clamped to [0, 1]. -/
def engineCalculateConfidenceScore (code : String) (p : EngineProject) : ℚ :=
  let area_alignment : ℚ := 9/10
  let completed_fields : ℚ :=
    (if !(p.title == "") then 1 else 0)
    + (if !(p.general_objective == "") then 1 else 0)
    + (if !p.specific_objectives.isEmpty then 1 else 0)
    + (if !(p.justification == "") then 1 else 0)
    + (if !(p.methodology == "") then 1 else 0)
    + (if !p.team_members.isEmpty then 1 else 0)
    + (if !p.budget_items.isEmpty then 1 else 0)
    + (if !p.goals.isEmpty then 1 else 0)
  let completeness := completed_fields / 8
  let budget_quality : ℚ :=
    if !p.budget_items.isEmpty then
      if p.budget_items.any (fun it => it.category == "pessoal")
          && p.budget_items.any (fun it => it.category == "auditoria")
        then 9/10 else 6/10
    else 3/10
  let team_adequacy : ℚ :=
    min 1 ((p.team_members.length : ℚ) / (max 1 (requiredTeamRoles code).length : ℕ))
  let timeline_viability : ℚ :=
    if 6 ≤ p.timeline_months ∧ p.timeline_months ≤ 48 then 9/10 else 5/10
  let weighted := area_alignment * (25/100) + completeness * (20/100)
    + budget_quality * (20/100) + team_adequacy * (20/100)
    + timeline_viability * (15/100)
  min 1 (max 0 weighted)

/-- The `area_recommendations` dict of the engine
`_generate_recommendations` (lines 1852-1893), with its `.get`
fallback. -/
def engineAreaRecommendations : String → List String
  | "QSS" => ["Realizar diagnóstico de acessibilidade antes do início das adequações",
              "Envolver pessoas com deficiência na avaliação das melhorias implementadas",
              "Documentar todas as adequações com fotos antes e depois"]
  | "RPD" => ["Estabelecer protocolos de avaliação funcional padronizados",
              "Implementar sistema de registro eletrônico de evolução dos pacientes",
              "Criar programa de orientação familiar para continuidade do tratamento"]
  | "DDP" => ["Desenvolver fluxograma de atendimento para otimizar o processo diagnóstico",
              "Estabelecer rede de referência com outros serviços especializados",
              "Criar protocolo de comunicação de diagnóstico às famílias"]
  | "EPD" => ["Articular com serviços de saúde materno-infantil para identificação precoce",
              "Desenvolver material educativo para orientação familiar",
              "Estabelecer critérios claros de alta e transição para outros serviços"]
  | "ITR" => ["Mapear empresas locais para parcerias de colocação profissional",
              "Desenvolver programa de sensibilização empresarial sobre inclusão",
              "Criar sistema de acompanhamento pós-inserção no trabalho"]
  | "APE" => ["Estabelecer parcerias com clubes e associações esportivas locais",
              "Desenvolver programa de formação de instrutores especializados",
              "Criar calendário de eventos esportivos inclusivos"]
  | "TAA" => ["Desenvolver protocolos rigorosos de higiene e segurança",
              "Estabelecer parceria com clínica veterinária para cuidados dos animais",
              "Criar programa de certificação para condutores de animais"]
  | "APC" => ["Estabelecer parcerias com instituições culturais locais",
              "Desenvolver programa de formação de arte-terapeutas",
              "Criar calendário de eventos culturais inclusivos"]
  | _ => []

/-- The fixed `general_recommendations` bank of the engine
`_generate_recommendations` (lines 1899-1906). -/
def engineGeneralRecommendations : List String :=
  ["Estabelecer indicadores de qualidade para monitoramento contínuo",
   "Desenvolver plano de comunicação para divulgação dos resultados",
   "Criar comitê gestor com representação da comunidade beneficiária",
   "Implementar sistema de feedback dos usuários",
   "Estabelecer parcerias com universidades para avaliação externa",
   "Desenvolver plano de sustentabilidade financeira do projeto"]

/-- The engine `_generate_recommendations` (lines 1830-1910): one
aggregate message per non-empty error and warning list, followed by the
two `random.sample` selections modelled through index streams. -/
def engineGenerateRecommendations (r : EngineRand) (code : String)
    (v : EngineValidation) : List String :=
  (if !v.errors.isEmpty then
     ["Corrigir os erros identificados na validação antes da submissão do projeto"]
   else [])
  ++ (if !v.warnings.isEmpty then
        ["Considerar as sugestões de melhoria identificadas na validação"]
      else [])
  ++ sampleIdx r.rec_area_pick 0 (min 3 (engineAreaRecommendations code).length)
       (engineAreaRecommendations code)
  ++ sampleIdx r.rec_general_pick 0 2 engineGeneralRecommendations

/-- A simulated similar-project entry of the engine
`_find_similar_projects` (lines 1912-1937). -/
structure EngineSimilarProject where
  title : String
  institution : String
  budget : ℚ
  beneficiaries : ℕ
  similarity_score : ℚ
  outcomes : String
  lessons_learned : String
  deriving Repr, DecidableEq

/-- The engine `_find_similar_projects`: two fixed entries interpolated
with the area code. -/
def engineFindSimilarProjects (code : String) : List EngineSimilarProject :=
  [⟨"Projeto similar em " ++ code ++ " - Região Sul", "Instituição Similar",
    450000, 180, 85/100, "Resultados positivos relatados",
    "Importância da articulação com rede local"⟩,
   ⟨"Experiência exitosa em " ++ code ++ " - Nordeste", "Centro de Referência",
    520000, 220, 78/100, "Metas superadas em 15%",
    "Engajamento familiar é fundamental para sucesso"⟩]

/-- The response dict of the engine orchestrator (lines 550-558). -/
structure EngineResponse where
  project : EngineProject
  confidence_score : ℚ
  compliance_score : ℚ
  recommendations : List String
  validation_results : EngineValidation
  similar_projects : List EngineSimilarProject
  generation_time : ℚ
  deriving Repr, DecidableEq

/-- The engine orchestrator `generate_project_from_guidelines`
(`backend/ai/engine.py` lines 469-562): the membership test on the
8-key area dict is the first statement and raises the unknown-area
`ValueError` before any generation step; otherwise the ten steps run in
source order and the assembled response is returned.  The `r` record
carries the draws taken from the global random module and `elapsed`
stands for the wall-clock `generation_time` difference. -/
def generateProjectFromGuidelines (r : EngineRand) (elapsed : ℚ)
    (inst : EngineInstitution) (req : EngineRequirements) (code : String) :
    Except String EngineResponse :=
  if !(priorityAreaCodes.contains code) then
    .error ("Código de área prioritária inválido: " ++ code)
  else
    let project_structure := engineGenerateProjectStructure r code inst req
    let team := generateSpecializedTeam code req.budget_total r.salary_draw
    let items := generateDetailedBudget code req.budget_total team
    let timeline := engineTimeline req.timeline_months
    let goals := engineGenerateProjectGoals code (req.target_beneficiaries.getD 200)
    let project : EngineProject :=
      { title := project_structure.title, description := project_structure.description,
        field_of_action := project_structure.field_of_action,
        general_objective := project_structure.general_objective,
        specific_objectives := project_structure.specific_objectives,
        justification := project_structure.justification,
        target_audience := project_structure.target_audience,
        methodology := project_structure.methodology,
        expected_results := project_structure.expected_results,
        sustainability_plan := project_structure.sustainability_plan,
        budget_total := project_structure.budget_total,
        timeline_months := project_structure.timeline_months,
        team_members := team, budget_items := items,
        timeline := timeline, goals := goals }
    let v := engineValidateProjectCompliance project
    .ok { project := project,
          confidence_score := engineCalculateConfidenceScore code project,
          compliance_score := engineCalculateComplianceScore project v,
          recommendations := engineGenerateRecommendations r code v,
          validation_results := v,
          similar_projects := engineFindSimilarProjects code,
          generation_time := elapsed }

end Engine

namespace Engine

/-- A concrete bundle of random draws for evaluating the engine
pipeline. -/
def exampleRand : EngineRand :=
  { title_choice := 0, objectives_count := 3, objectives_pick := fun _ => 0,
    salary_draw := fun _ => 0, rec_area_pick := fun _ => 0,
    rec_general_pick := fun _ => 0 }

/-- A concrete institution descriptor for evaluating the engine
pipeline. -/
def exampleInstitution : EngineInstitution :=
  { name := "Instituição Exemplo", city := "Cidade", state := "UF" }

/-- Concrete requirements for evaluating the engine pipeline. -/
def exampleRequirements : EngineRequirements :=
  { budget_total := 500000, timeline_months := 24 }

end Engine

/-! ## Helper lemmas -/

theorem itemsTotal_append (a b : List Enhanced.BudgetItem) :
    Enhanced.itemsTotal (a ++ b) = Enhanced.itemsTotal a + Enhanced.itemsTotal b := by
  simp [Enhanced.itemsTotal]

theorem itemsOfCategory_append (c : String) (a b : List Enhanced.BudgetItem) :
    Enhanced.itemsOfCategory c (a ++ b)
      = Enhanced.itemsOfCategory c a ++ Enhanced.itemsOfCategory c b := by
  simp [Enhanced.itemsOfCategory]

theorem engine_itemsOfCategory_append (c : String) (a b : List Engine.BudgetItem) :
    Engine.itemsOfCategory c (a ++ b)
      = Engine.itemsOfCategory c a ++ Engine.itemsOfCategory c b := by
  simp [Engine.itemsOfCategory]

theorem normalizeDistribution_of_audit (dist : List (String × ℚ))
    (h : dist.any (fun kv => kv.1 == "auditoria") = true) :
    Enhanced.normalizeDistribution dist = dist := by
  unfold Enhanced.normalizeDistribution
  rw [if_pos h]

theorem normalizeDistribution_of_no_audit (dist : List (String × ℚ))
    (h : dist.any (fun kv => kv.1 == "auditoria") = false) :
    Enhanced.normalizeDistribution dist
      = dist.map (fun kv => (kv.1, kv.2 * (95/100) / (dist.map Prod.snd).sum))
        ++ [("auditoria", 5/100)] := by
  unfold Enhanced.normalizeDistribution
  rw [if_neg (by simp [h])]
  simp only [List.map_append, List.map_cons, List.map_nil, List.sum_append,
    List.sum_cons, List.sum_nil, add_zero]
  congr 1
  · apply List.map_congr_left
    intro kv hkv
    have hne : (kv.1 == "auditoria") = false := by
      rcases List.any_eq_false.mp h kv hkv with hne
      simpa using hne
    rw [hne]
    simp only [Bool.false_eq_true, if_false]
    have : (List.map Prod.snd dist).sum + 5 / 100 - 5 / 100
        = (List.map Prod.snd dist).sum := by ring
    rw [this]


theorem sum_map_rescale (c : ℚ) (l : List (String × ℚ)) :
    ((l.map (fun kv => (kv.1, kv.2 * c))).map Prod.snd).sum
      = (l.map Prod.snd).sum * c := by
  induction l with
  | nil => simp
  | cons a t ih =>
    simp only [List.map_cons, List.sum_cons, ih]
    ring

/-! ## Claim C4 -/

/-- C4, counterexample: on a concrete map lacking `auditoria` the code
keeps the `pessoal` fraction at 0.45 (its rescale factor is
`(1 - 0.05) / sum_of_existing = 0.95/0.95`), while the formula stated
in the claim, `(1 - 0.05) / (1 - sum_of_existing) = 0.95/0.05`, would
yield 8.55; the claimed rescale factor is therefore not the one the
code applies. -/
theorem claim_C4_counterexample :
    Enhanced.normalizeDistribution Enhanced.sampleNoAuditDist
        ≠ Enhanced.specNormalizeDistribution Enhanced.sampleNoAuditDist
    ∧ (Enhanced.normalizeDistribution Enhanced.sampleNoAuditDist).head?
        = some ("pessoal", 45/100)
    ∧ (Enhanced.specNormalizeDistribution Enhanced.sampleNoAuditDist).head?
        = some ("pessoal", 171/20) := by
  have hsum : (Enhanced.sampleNoAuditDist.map Prod.snd).sum = 95/100 := by
    norm_num [Enhanced.sampleNoAuditDist]
  have hcode : Enhanced.normalizeDistribution Enhanced.sampleNoAuditDist
      = [("pessoal", 45/100), ("material_consumo", 20/100), ("material_permanente", 15/100),
         ("despesas_administrativas", 10/100), ("reformas", 5/100), ("auditoria", 5/100)] := by
    rw [normalizeDistribution_of_no_audit _ (by decide), hsum]
    norm_num [Enhanced.sampleNoAuditDist]
  have hspec : Enhanced.specNormalizeDistribution Enhanced.sampleNoAuditDist
      = [("pessoal", 171/20), ("material_consumo", 19/5), ("material_permanente", 57/20),
         ("despesas_administrativas", 19/10), ("reformas", 19/20), ("auditoria", 5/100)] := by
    unfold Enhanced.specNormalizeDistribution
    rw [if_neg (by decide)]
    simp only [hsum]
    norm_num [Enhanced.sampleNoAuditDist]
  refine ⟨?_, by rw [hcode]; rfl, by rw [hspec]; rfl⟩
  rw [hcode, hspec]
  norm_num [List.cons.injEq, Prod.mk.injEq]

/-- C4 (amended): for every distribution map lacking the `auditoria`
key and with non-zero value sum, the Budget Allocator injects
`auditoria` at fraction 0.05 and rescales every other fraction by
`(1 - audit_fraction) / sum_of_existing_fractions` (not by
`(1 - audit_fraction) / (1 - sum_of_existing_fractions)` as the claim
stated), so the resulting map sums to 1.0; a map already containing
`auditoria` is left unchanged, and the operation is deterministic and
idempotent. -/
theorem claim_C4_amended :
    (∀ dist : List (String × ℚ), dist.any (fun kv => kv.1 == "auditoria") = false →
      (dist.map Prod.snd).sum ≠ 0 →
      Enhanced.normalizeDistribution dist
        = dist.map (fun kv => (kv.1, kv.2 * ((1 - 5/100) / (dist.map Prod.snd).sum)))
          ++ [("auditoria", 5/100)]
      ∧ ((Enhanced.normalizeDistribution dist).map Prod.snd).sum = 1)
    ∧ (∀ dist : List (String × ℚ), dist.any (fun kv => kv.1 == "auditoria") = true →
      Enhanced.normalizeDistribution dist = dist)
    ∧ (∀ dist : List (String × ℚ),
      Enhanced.normalizeDistribution (Enhanced.normalizeDistribution dist)
        = Enhanced.normalizeDistribution dist) := by
  refine ⟨?_, ?_, ?_⟩
  · intro dist h hs
    have hform : Enhanced.normalizeDistribution dist
        = dist.map (fun kv => (kv.1, kv.2 * ((1 - 5/100) / (dist.map Prod.snd).sum)))
          ++ [("auditoria", 5/100)] := by
      rw [normalizeDistribution_of_no_audit dist h]
      congr 1
      apply List.map_congr_left
      intro kv _
      have : kv.2 * (95/100) / (dist.map Prod.snd).sum
          = kv.2 * ((1 - 5/100) / (dist.map Prod.snd).sum) := by
        ring
      rw [this]
    refine ⟨hform, ?_⟩
    rw [hform]
    simp only [List.map_append, List.sum_append, List.map_cons, List.map_nil,
      List.sum_cons, List.sum_nil, add_zero, sum_map_rescale]
    field_simp
    ring
  · intro dist h
    exact normalizeDistribution_of_audit dist h
  · intro dist
    by_cases hd : dist.any (fun kv => kv.1 == "auditoria") = true
    · rw [normalizeDistribution_of_audit dist hd]
      exact normalizeDistribution_of_audit dist hd
    · have hd' : dist.any (fun kv => kv.1 == "auditoria") = false := by
        revert hd
        cases dist.any (fun kv => kv.1 == "auditoria") <;> simp
      apply normalizeDistribution_of_audit
      rw [normalizeDistribution_of_no_audit dist hd']
      rw [List.any_append]
      simp

/-- C4, witness: the amended theorem applied to the concrete map
lacking `auditoria` and, for the other two conjuncts, to maps
containing it. -/
theorem claim_C4_witness :
    (((Enhanced.normalizeDistribution Enhanced.sampleNoAuditDist).map Prod.snd).sum = 1)
    ∧ Enhanced.normalizeDistribution Enhanced.rpdDist = Enhanced.rpdDist
    ∧ Enhanced.normalizeDistribution
        (Enhanced.normalizeDistribution Enhanced.sampleNoAuditDist)
      = Enhanced.normalizeDistribution Enhanced.sampleNoAuditDist :=
  ⟨(claim_C4_amended.1 Enhanced.sampleNoAuditDist (by decide) (by norm_num [Enhanced.sampleNoAuditDist])).2,
   claim_C4_amended.2.1 Enhanced.rpdDist (by decide),
   claim_C4_amended.2.2 Enhanced.sampleNoAuditDist⟩

theorem itemsTotal_flatten (L : List (List Enhanced.BudgetItem)) :
    Enhanced.itemsTotal L.flatten = (L.map Enhanced.itemsTotal).sum := by
  induction L with
  | nil => simp [Enhanced.itemsTotal]
  | cons a t ih =>
    simp only [List.flatten_cons, List.map_cons, List.sum_cons, itemsTotal_append, ih]

theorem itemsOfCategory_flatten (c : String) (L : List (List Enhanced.BudgetItem)) :
    Enhanced.itemsOfCategory c L.flatten
      = (L.map (Enhanced.itemsOfCategory c)).flatten := by
  induction L with
  | nil => simp [Enhanced.itemsOfCategory]
  | cons a t ih =>
    simp only [List.flatten_cons, List.map_cons, itemsOfCategory_append, ih]

theorem itemsTotal_categoryItems_pessoal (T p : ℚ) :
    Enhanced.itemsTotal (Enhanced.categoryItems T "pessoal" p)
      = T * p + max 0 (240000 - T * p) := by
  simp only [Enhanced.categoryItems]
  by_cases h : T * p - 240000 > 0
  · rw [if_pos h]
    simp only [Enhanced.itemsTotal, List.map_cons, List.map_nil, List.sum_cons, List.sum_nil]
    have : max 0 (240000 - T * p) = 0 := by
      apply max_eq_left; linarith
    rw [this]; ring
  · rw [if_neg h]
    simp only [Enhanced.itemsTotal, List.map_cons, List.map_nil, List.sum_cons, List.sum_nil]
    have : max 0 (240000 - T * p) = 240000 - T * p := by
      apply max_eq_right; linarith
    rw [this]; ring

theorem itemsTotal_categoryItems_consumo (T p : ℚ) :
    Enhanced.itemsTotal (Enhanced.categoryItems T "material_consumo" p) = T * p := by
  simp [Enhanced.categoryItems, Enhanced.itemsTotal]

theorem itemsTotal_categoryItems_permanente (T p : ℚ) :
    Enhanced.itemsTotal (Enhanced.categoryItems T "material_permanente" p) = T * p := by
  simp [Enhanced.categoryItems, Enhanced.itemsTotal]

theorem itemsTotal_categoryItems_administrativas (T p : ℚ) :
    Enhanced.itemsTotal (Enhanced.categoryItems T "despesas_administrativas" p) = T * p := by
  simp [Enhanced.categoryItems, Enhanced.itemsTotal]

theorem itemsTotal_categoryItems_auditoria (T p : ℚ) :
    Enhanced.itemsTotal (Enhanced.categoryItems T "auditoria" p) = T * p := by
  simp [Enhanced.categoryItems, Enhanced.itemsTotal]

theorem itemsTotal_categoryItems_reformas (T p : ℚ) (h : 0 < p) :
    Enhanced.itemsTotal (Enhanced.categoryItems T "reformas" p) = T * p := by
  simp only [Enhanced.categoryItems]
  rw [if_pos h]
  simp [Enhanced.itemsTotal]

theorem audit_filter_pessoal (T p : ℚ) :
    Enhanced.itemsOfCategory "auditoria" (Enhanced.categoryItems T "pessoal" p) = [] := by
  simp only [Enhanced.categoryItems]
  split_ifs <;> rfl

theorem audit_filter_consumo (T p : ℚ) :
    Enhanced.itemsOfCategory "auditoria" (Enhanced.categoryItems T "material_consumo" p) = [] := by
  rfl

theorem audit_filter_permanente (T p : ℚ) :
    Enhanced.itemsOfCategory "auditoria" (Enhanced.categoryItems T "material_permanente" p) = [] := by
  rfl

theorem audit_filter_administrativas (T p : ℚ) :
    Enhanced.itemsOfCategory "auditoria" (Enhanced.categoryItems T "despesas_administrativas" p) = [] := by
  rfl

theorem audit_filter_reformas (T p : ℚ) :
    Enhanced.itemsOfCategory "auditoria" (Enhanced.categoryItems T "reformas" p) = [] := by
  simp only [Enhanced.categoryItems]
  split_ifs <;> rfl

theorem audit_filter_auditoria (T p : ℚ) :
    Enhanced.itemsOfCategory "auditoria" (Enhanced.categoryItems T "auditoria" p)
      = [{ category := "auditoria",
           description := "Auditoria independente (obrigatória)", unit := "projeto",
           quantity := 1, unit_value := T * p, total_value := T * p }] := by
  rfl

theorem captacao_filter_pessoal (T p : ℚ) :
    Enhanced.itemsOfCategory "captacao_recursos" (Enhanced.categoryItems T "pessoal" p) = [] := by
  simp only [Enhanced.categoryItems]
  split_ifs <;> rfl

theorem captacao_filter_consumo (T p : ℚ) :
    Enhanced.itemsOfCategory "captacao_recursos" (Enhanced.categoryItems T "material_consumo" p) = [] := by
  rfl

theorem captacao_filter_permanente (T p : ℚ) :
    Enhanced.itemsOfCategory "captacao_recursos" (Enhanced.categoryItems T "material_permanente" p) = [] := by
  rfl

theorem captacao_filter_administrativas (T p : ℚ) :
    Enhanced.itemsOfCategory "captacao_recursos" (Enhanced.categoryItems T "despesas_administrativas" p) = [] := by
  rfl

theorem captacao_filter_reformas (T p : ℚ) :
    Enhanced.itemsOfCategory "captacao_recursos" (Enhanced.categoryItems T "reformas" p) = [] := by
  simp only [Enhanced.categoryItems]
  split_ifs <;> rfl

theorem captacao_filter_auditoria (T p : ℚ) :
    Enhanced.itemsOfCategory "captacao_recursos" (Enhanced.categoryItems T "auditoria" p) = [] := by
  rfl

/-! ## Claim C1 -/

/-- C1: at area RPD with total budget 100000 the enhanced budget
generator emits items summing to 290000 — the personnel coordination
line is fixed at 240000 regardless of the 50% personnel share — while
no fundraising item exists to clip; the sum misses the declared total
by far more than 0.01, and the budget-consistency validator of
`ProjectCreate` itself rejects the generated items. -/
theorem claim_C1_codebug :
    Enhanced.itemsTotal (Enhanced.generateProjectBudget Enhanced.rpdDist 100000) = 290000
    ∧ Enhanced.itemsOfCategory "captacao_recursos"
        (Enhanced.generateProjectBudget Enhanced.rpdDist 100000) = []
    ∧ 1/100 < |Enhanced.itemsTotal (Enhanced.generateProjectBudget Enhanced.rpdDist 100000) - 100000|
    ∧ Enhanced.validateBudgetConsistency
        (Enhanced.generateProjectBudget Enhanced.rpdDist 100000) 100000
      = .error .budgetSumMismatch := by
  have hnorm : Enhanced.normalizeDistribution Enhanced.rpdDist = Enhanced.rpdDist :=
    normalizeDistribution_of_audit _ (by decide)
  have htot : Enhanced.itemsTotal (Enhanced.generateProjectBudget Enhanced.rpdDist 100000)
      = 290000 := by
    unfold Enhanced.generateProjectBudget
    rw [hnorm]
    rw [show Enhanced.rpdDist
        = [("pessoal", 50/100), ("material_consumo", 20/100), ("material_permanente", 15/100),
           ("despesas_administrativas", 10/100), ("auditoria", 5/100)] from rfl]
    simp only [List.map_cons, List.map_nil]
    rw [itemsTotal_flatten]
    simp only [List.map_cons, List.map_nil, List.sum_cons, List.sum_nil,
      itemsTotal_categoryItems_pessoal, itemsTotal_categoryItems_consumo,
      itemsTotal_categoryItems_permanente, itemsTotal_categoryItems_administrativas,
      itemsTotal_categoryItems_auditoria]
    rw [show max (0:ℚ) (240000 - 100000 * (50/100)) = 190000 by
      rw [max_eq_right (by norm_num)]; norm_num]
    norm_num
  have hcap : Enhanced.itemsOfCategory "captacao_recursos"
      (Enhanced.generateProjectBudget Enhanced.rpdDist 100000) = [] := by
    unfold Enhanced.generateProjectBudget
    rw [hnorm]
    rw [show Enhanced.rpdDist
        = [("pessoal", 50/100), ("material_consumo", 20/100), ("material_permanente", 15/100),
           ("despesas_administrativas", 10/100), ("auditoria", 5/100)] from rfl]
    simp only [List.map_cons, List.map_nil]
    rw [itemsOfCategory_flatten]
    simp only [List.map_cons, List.map_nil, captacao_filter_pessoal,
      captacao_filter_consumo, captacao_filter_permanente,
      captacao_filter_administrativas, captacao_filter_auditoria]
    rfl
  have habs : (1:ℚ)/100
      < |Enhanced.itemsTotal (Enhanced.generateProjectBudget Enhanced.rpdDist 100000) - 100000| := by
    rw [htot]
    rw [show (290000:ℚ) - 100000 = 190000 by norm_num]
    rw [abs_of_nonneg (by norm_num)]
    norm_num
  have hne : (Enhanced.generateProjectBudget Enhanced.rpdDist 100000).isEmpty = false := by
    cases h : Enhanced.generateProjectBudget Enhanced.rpdDist 100000 with
    | nil => rw [h] at htot; simp [Enhanced.itemsTotal] at htot
    | cons a l => rfl
  refine ⟨htot, hcap, habs, ?_⟩
  unfold Enhanced.validateBudgetConsistency
  rw [hne]
  simp only [Bool.not_false, if_true]
  rw [if_pos habs]

theorem engine_filter_personnel (c : String) (h : ("pessoal" == c) = false)
    (team : List Engine.TeamMember) :
    Engine.itemsOfCategory c (Engine.personnelItems team) = [] := by
  unfold Engine.personnelItems Engine.itemsOfCategory
  rw [List.filter_map]
  simp [Function.comp, h]

theorem engine_filter_equipment (c : String) (h : ("material_permanente" == c) = false)
    (area_name : String) (es : List Engine.Equipment) (r : ℚ) :
    Engine.itemsOfCategory c (Engine.equipmentItems area_name es r) = [] := by
  induction es generalizing r with
  | nil => rfl
  | cons e t ih =>
    show Engine.itemsOfCategory c
        (if r ≤ 0 then []
         else if e.unit_price * e.quantity ≤ r then
           { category := "material_permanente", subcategory := e.name,
             description := e.name ++ " - unidade(s)", unit := "unidade",
             quantity := e.quantity, unit_value := e.unit_price,
             total_value := e.unit_price * e.quantity, nature_expense_code := "449052",
             justification := "Equipamento necessário para " ++ area_name }
             :: Engine.equipmentItems area_name t (r - e.unit_price * e.quantity)
         else Engine.equipmentItems area_name t r) = []
    split_ifs with h1 h2
    · rfl
    · unfold Engine.itemsOfCategory at *
      rw [List.filter_cons]
      simp only [h, Bool.false_eq_true, if_false]
      exact ih _
    · exact ih _

theorem engine_filter_ite (c : String) (P : Prop) [Decidable P]
    (xs : List Engine.BudgetItem) (h : Engine.itemsOfCategory c xs = []) :
    Engine.itemsOfCategory c (if P then xs else []) = [] := by
  split_ifs
  · exact h
  · rfl

theorem engine_audit_filter (code : String) (T : ℚ) (team : List Engine.TeamMember) :
    Engine.itemsOfCategory "auditoria" (Engine.generateDetailedBudget code T team)
      = [Engine.auditItem T] := by
  unfold Engine.generateDetailedBudget
  simp only [engine_itemsOfCategory_append]
  rw [engine_filter_personnel _ (by decide) team]
  rw [engine_filter_ite _ _ _ (engine_filter_equipment _ (by decide) _ _ _)]
  rw [engine_filter_ite _ _ _ (by rfl : Engine.itemsOfCategory "auditoria" (Engine.consumableItems code _) = [])]
  rw [engine_filter_ite _ _ _ (by rfl : Engine.itemsOfCategory "auditoria" (Engine.reformItems _) = [])]
  rw [engine_filter_ite _ _ _ (by rfl : Engine.itemsOfCategory "auditoria" (Engine.administrativeItems _) = [])]
  rfl

theorem engine_captacao_filter (code : String) (T : ℚ) (team : List Engine.TeamMember) :
    Engine.itemsOfCategory "captacao_recursos" (Engine.generateDetailedBudget code T team)
      = [Engine.captacaoItem T] := by
  unfold Engine.generateDetailedBudget
  simp only [engine_itemsOfCategory_append]
  rw [engine_filter_personnel _ (by decide) team]
  rw [engine_filter_ite _ _ _ (engine_filter_equipment _ (by decide) _ _ _)]
  rw [engine_filter_ite _ _ _ (by rfl : Engine.itemsOfCategory "captacao_recursos" (Engine.consumableItems code _) = [])]
  rw [engine_filter_ite _ _ _ (by rfl : Engine.itemsOfCategory "captacao_recursos" (Engine.reformItems _) = [])]
  rw [engine_filter_ite _ _ _ (by rfl : Engine.itemsOfCategory "captacao_recursos" (Engine.administrativeItems _) = [])]
  rfl

theorem enhanced_audit_filter (code : String) (hcode : code ∈ Enhanced.priorityAreaCodes)
    (T : ℚ) :
    Enhanced.itemsOfCategory "auditoria"
        (Enhanced.generateProjectBudget (Enhanced.enhancedDist code) T)
      = [{ category := "auditoria",
           description := "Auditoria independente (obrigatória)", unit := "projeto",
           quantity := 1, unit_value := T * (5/100), total_value := T * (5/100) }] := by
  fin_cases hcode <;>
    (unfold Enhanced.generateProjectBudget
     simp only [Enhanced.enhancedDist]
     rw [normalizeDistribution_of_audit _ (by decide)]
     simp only [Enhanced.qssDist, Enhanced.rpdDist, Enhanced.ddpDist, Enhanced.epdDist,
       Enhanced.itrDist, Enhanced.apeDist, Enhanced.taaDist, Enhanced.apcDist,
       List.map_cons, List.map_nil]
     rw [itemsOfCategory_flatten]
     simp only [List.map_cons, List.map_nil, audit_filter_pessoal, audit_filter_consumo,
       audit_filter_permanente, audit_filter_administrativas, audit_filter_reformas,
       audit_filter_auditoria, List.flatten_cons, List.flatten_nil, List.nil_append,
       List.append_nil])

/-! ## Claim C2 -/

/-- C2, counterexample: at total budget 200000 the engine budget has
its single audit item valued `max(0.03 × 200000, 5000) = 6000`, which
is below 5% of the total budget (10000). -/
theorem claim_C2_counterexample :
    ((Engine.itemsOfCategory "auditoria"
        (Engine.generateDetailedBudget "QSS" 200000 [])).map
          Engine.BudgetItem.total_value) = [6000]
    ∧ ¬ ((200000:ℚ) * (5/100) ≤ 6000) := by
  constructor
  · rw [engine_audit_filter]
    simp only [Engine.auditItem, List.map_cons, List.map_nil]
    rw [show max ((200000:ℚ) * (3/100)) 5000 = 6000 by
      rw [max_eq_left (by norm_num)]; norm_num]
  · norm_num

/-- C2 (amended): for each of the 8 area codes and every positive total
budget, each generator produces exactly one `auditoria` line item whose
total value is at least 3% of the total budget — exactly 5% in the
enhanced service and `max(3% × total, 5000)` in the engine (the ≥5%
bound of the original claim holds only for the enhanced service). -/
theorem claim_C2_amended (code : String) (hcode : code ∈ Enhanced.priorityAreaCodes)
    (T : ℚ) (hT : 0 < T) (team : List Engine.TeamMember) :
    ((Enhanced.itemsOfCategory "auditoria"
        (Enhanced.generateProjectBudget (Enhanced.enhancedDist code) T)).map
          Enhanced.BudgetItem.total_value) = [T * (5/100)]
    ∧ T * (3/100) ≤ T * (5/100)
    ∧ ((Engine.itemsOfCategory "auditoria"
        (Engine.generateDetailedBudget code T team)).map
          Engine.BudgetItem.total_value) = [max (T * (3/100)) 5000]
    ∧ T * (3/100) ≤ max (T * (3/100)) 5000 := by
  refine ⟨?_, by nlinarith, ?_, le_max_left _ _⟩
  · rw [enhanced_audit_filter code hcode T]
    rfl
  · rw [engine_audit_filter code T team]
    rfl

/-- C2, witness: the amended theorem at area QSS, total budget 500000
and an empty engine team. -/
theorem claim_C2_witness :
    ((Enhanced.itemsOfCategory "auditoria"
        (Enhanced.generateProjectBudget (Enhanced.enhancedDist "QSS") 500000)).map
          Enhanced.BudgetItem.total_value) = [500000 * (5/100)]
    ∧ (500000:ℚ) * (3/100) ≤ 500000 * (5/100)
    ∧ ((Engine.itemsOfCategory "auditoria"
        (Engine.generateDetailedBudget "QSS" 500000 [])).map
          Engine.BudgetItem.total_value) = [max ((500000:ℚ) * (3/100)) 5000]
    ∧ (500000:ℚ) * (3/100) ≤ max ((500000:ℚ) * (3/100)) 5000 :=
  claim_C2_amended "QSS" (by decide) 500000 (by norm_num) []

/-! ## Claim C3 -/

/-- C3: for each of the 8 area codes, every positive total budget and
every generated team, the fundraising items of the engine budget total
at most `min(0.05 × total_budget, 50000)` (the single fundraising item
is in fact valued at exactly that bound). -/
theorem claim_C3_captacao_cap (code : String)
    (hcode : code ∈ Enhanced.priorityAreaCodes) (T : ℚ) (hT : 0 < T)
    (team : List Engine.TeamMember) :
    Engine.itemsTotal (Engine.itemsOfCategory "captacao_recursos"
        (Engine.generateDetailedBudget code T team))
      ≤ min (T * (5/100)) 50000 := by
  rw [engine_captacao_filter code T team]
  have hval : Engine.itemsTotal [Engine.captacaoItem T]
      = T * (min 5 ((50000 / T) * 100) / 100) := by
    simp [Engine.itemsTotal, Engine.captacaoItem]
  rw [hval]
  have h1 : T * (min 5 ((50000 / T) * 100) / 100) ≤ T * (5/100) := by
    apply mul_le_mul_of_nonneg_left _ hT.le
    exact (div_le_div_right (by norm_num)).mpr (min_le_left _ _)
  have h2 : T * (min 5 ((50000 / T) * 100) / 100) ≤ 50000 := by
    have heq : T * (((50000 / T) * 100) / 100) = 50000 := by
      field_simp
      ring
    calc T * (min 5 ((50000 / T) * 100) / 100)
        ≤ T * (((50000 / T) * 100) / 100) :=
          mul_le_mul_of_nonneg_left
            ((div_le_div_right (by norm_num)).mpr (min_le_right _ _)) hT.le
      _ = 50000 := heq
  exact le_min h1 h2

/-- C3, witness: the cap theorem at area QSS, total budget 500000 and
an empty team. -/
theorem claim_C3_witness :
    Engine.itemsTotal (Engine.itemsOfCategory "captacao_recursos"
        (Engine.generateDetailedBudget "QSS" 500000 []))
      ≤ min ((500000:ℚ) * (5/100)) 50000 :=
  claim_C3_captacao_cap "QSS" (by decide) 500000 (by norm_num) []

theorem teamLoop_all_dropped (draw : ℕ → ℚ) (roles : List String) (i : ℕ) (remaining : ℚ)
    (h : ∀ j role, roles.get? j = some role →
      min (draw (i + j)) (remaining / 24)
        < (Engine.teamSalaryRanges (Engine.roleMapping role)).min * (1/2)) :
    Engine.teamLoop draw roles i remaining = [] := by
  induction roles generalizing i with
  | nil => rfl
  | cons r rest ih =>
    simp only [Engine.teamLoop]
    have h0 := h 0 r rfl
    rw [Nat.add_zero] at h0
    rw [if_pos h0]
    apply ih (i + 1)
    intro j role hj
    have step := h (j + 1) role hj
    rw [show i + (j + 1) = i + 1 + j from by omega] at step
    exact step

theorem rpd_team_empty (T : ℚ) (draw : ℕ → ℚ)
    (hbudget : T * (60/100) / 24 < 1750) (hdraw : ∀ i, 3500 ≤ draw i) :
    Engine.generateSpecializedTeam "RPD" T draw = [] := by
  unfold Engine.generateSpecializedTeam
  rw [show Engine.distGet (Engine.engineDist "RPD") "pessoal" = 60 from rfl]
  rw [show Engine.requiredTeamRoles "RPD"
      = ["Coordenador (médico fisiatra ou neurologista)", "Fisioterapeuta",
         "Terapeuta ocupacional", "Fonoaudiólogo", "Psicólogo", "Assistente social"]
    from rfl]
  apply teamLoop_all_dropped
  intro j role hj
  rcases j with _ | _ | _ | _ | _ | _ | j <;> simp only [List.get?] at hj <;>
    first
      | (cases hj
         exact lt_of_le_of_lt (min_le_right _ _)
           (lt_of_lt_of_le hbudget
             (by norm_num [Engine.roleMapping, Engine.teamSalaryRanges])))
      | cases hj

/-! ## Claim C5 -/

/-- C5, counterexample: at the spec example input (total budget 10000,
area RPD) the coordinator role is silently dropped like every other
role — the role loop returns the empty team and no
`BudgetInsufficientError` exists anywhere in the source; generation
continues with an empty team instead of failing. -/
theorem claim_C5_counterexample :
    Engine.generateSpecializedTeam "RPD" 10000 (fun _ => 10000) = [] :=
  rpd_team_empty 10000 (fun _ => 10000) (by norm_num) (fun _ => by norm_num)

/-- C5 (amended): the engine raises no `BudgetInsufficientError`; a
role whose clipped salary `min(sample, remaining/24)` falls below half
its category minimum — the coordinator included — is silently skipped
and generation continues.  In particular, for the RPD role list, once
the personnel share (60% of the total budget) spread over 24 months is
below 1750 (half the smallest category minimum), every role including
the coordinator is dropped and the returned team is empty, with no
failure value of any kind. -/
theorem claim_C5_amended (T : ℚ) (draw : ℕ → ℚ)
    (hbudget : T * (60/100) / 24 < 1750) (hdraw : ∀ i, 3500 ≤ draw i) :
    Engine.generateSpecializedTeam "RPD" T draw = [] :=
  rpd_team_empty T draw hbudget hdraw

/-- C5, witness: the amended theorem at total budget 24000 with all
salary samples at 4000. -/
theorem claim_C5_witness :
    Engine.generateSpecializedTeam "RPD" 24000 (fun _ => 4000) = [] :=
  claim_C5_amended 24000 (fun _ => 4000) (by norm_num) (fun _ => by norm_num)

theorem validateBudgetConsistency_error (items : List Enhanced.BudgetItem) (b : ℚ)
    (e : Enhanced.GenError)
    (h : Enhanced.validateBudgetConsistency items b = .error e) :
    e.isUnknownArea = false := by
  simp only [Enhanced.validateBudgetConsistency] at h
  split_ifs at h <;> cases h <;> rfl

theorem validateTimelineConsistency_error (tl : List Enhanced.ProjectTimelineCreate)
    (months : ℕ) (e : Enhanced.GenError)
    (h : Enhanced.validateTimelineConsistency tl months = .error e) :
    e.isUnknownArea = false := by
  simp only [Enhanced.validateTimelineConsistency] at h
  split_ifs at h <;> cases h <;> rfl

theorem mkProjectCreate_error (base : Enhanced.ProjectStructureParts) (code : String)
    (b : ℚ) (team : List Enhanced.ProjectTeamCreate) (items : List Enhanced.BudgetItem)
    (goals : List Enhanced.ProjectGoalCreate) (tl : List Enhanced.ProjectTimelineCreate)
    (e : Enhanced.GenError)
    (h : Enhanced.mkProjectCreate base code b team items goals tl = .error e) :
    e.isUnknownArea = false := by
  unfold Enhanced.mkProjectCreate at h
  cases hb : Enhanced.validateBudgetConsistency items b with
  | error e1 =>
    rw [hb] at h
    cases h
    exact validateBudgetConsistency_error _ _ _ hb
  | ok u =>
    rw [hb] at h
    cases ht : Enhanced.validateTimelineConsistency tl base.timeline_months with
    | error e2 =>
      rw [ht] at h
      cases h
      exact validateTimelineConsistency_error _ _ _ ht
    | ok v =>
      rw [ht] at h
      cases h

/-! ## Claim C6 -/

/-- C6: in both services the membership test on the closed 8-code area
set is the first statement of `generate_project_from_guidelines`; for a
code outside the set each orchestrator returns its unknown-area
`ValueError` immediately, with nothing generated, and for a code inside
the set the unknown-area error is never the outcome — in the enhanced
service any failure comes from the downstream schema validators, whose
error values are never `unknownArea`, and the engine assembles and
returns its response dict. -/
theorem claim_C6_unknown_area (rng : ℕ → ℚ) (inst : Enhanced.InstitutionData)
    (req : Enhanced.ProjectRequirements) (r : Engine.EngineRand) (elapsed : ℚ)
    (einst : Engine.EngineInstitution) (ereq : Engine.EngineRequirements)
    (code : String) :
    (Enhanced.priorityAreaCodes.contains code = false →
      Enhanced.generateProjectFromGuidelines rng inst req code
        = .error (.unknownArea code))
    ∧ (Enhanced.priorityAreaCodes.contains code = true →
      ∀ e : Enhanced.GenError,
        Enhanced.generateProjectFromGuidelines rng inst req code = .error e →
        e.isUnknownArea = false)
    ∧ (Engine.priorityAreaCodes.contains code = false →
      Engine.generateProjectFromGuidelines r elapsed einst ereq code
        = .error ("Código de área prioritária inválido: " ++ code))
    ∧ (Engine.priorityAreaCodes.contains code = true →
      ∀ other : String,
        Engine.generateProjectFromGuidelines r elapsed einst ereq code
          ≠ .error ("Código de área prioritária inválido: " ++ other)) := by
  refine ⟨?_, ?_, ?_, ?_⟩
  · intro h
    unfold Enhanced.generateProjectFromGuidelines
    rw [h]
    rfl
  · intro h e he
    unfold Enhanced.generateProjectFromGuidelines at he
    rw [h] at he
    simp only [Bool.not_true, Bool.false_eq_true, if_false] at he
    cases hm : Enhanced.mkProjectCreate (Enhanced.generateProjectStructure inst req code)
        code (req.budget_total.getD 500000)
        (Enhanced.generateProjectTeam code (req.budget_total.getD 500000))
        (Enhanced.generateProjectBudget (Enhanced.enhancedDist code)
          (req.budget_total.getD 500000))
        (Enhanced.generateProjectGoals code)
        (Enhanced.generateProjectTimeline
          (Enhanced.generateProjectStructure inst req code).timeline_months) with
    | error e1 =>
      rw [hm] at he
      cases he
      exact mkProjectCreate_error _ _ _ _ _ _ _ _ hm
    | ok project =>
      rw [hm] at he
      cases he
  · intro h
    unfold Engine.generateProjectFromGuidelines
    rw [h]
    rfl
  · intro h other hc
    unfold Engine.generateProjectFromGuidelines at hc
    rw [h] at hc
    simp only [Bool.not_true, Bool.false_eq_true, if_false] at hc
    exact Except.noConfusion hc

/-- C6, witness: in both services a code outside the set yields exactly
the unknown-area error, and at the known code QSS the result is never
the unknown-area error. -/
theorem claim_C6_witness :
    (Enhanced.generateProjectFromGuidelines (fun _ => 0) {} {} "XYZ"
      = .error (.unknownArea "XYZ"))
    ∧ (Enhanced.generateProjectFromGuidelines (fun _ => 0) {} {} "QSS"
      ≠ .error (.unknownArea "QSS"))
    ∧ (Engine.generateProjectFromGuidelines Engine.exampleRand 0
        Engine.exampleInstitution Engine.exampleRequirements "XYZ"
      = .error ("Código de área prioritária inválido: " ++ "XYZ"))
    ∧ (Engine.generateProjectFromGuidelines Engine.exampleRand 0
        Engine.exampleInstitution Engine.exampleRequirements "QSS"
      ≠ .error ("Código de área prioritária inválido: " ++ "QSS")) := by
  refine ⟨?_, ?_, ?_, ?_⟩
  · exact (claim_C6_unknown_area (fun _ => 0) {} {} Engine.exampleRand 0
      Engine.exampleInstitution Engine.exampleRequirements "XYZ").1 (by decide)
  · intro hcontra
    have := (claim_C6_unknown_area (fun _ => 0) {} {} Engine.exampleRand 0
      Engine.exampleInstitution Engine.exampleRequirements "QSS").2.1 (by decide)
      (.unknownArea "QSS") hcontra
    simp [Enhanced.GenError.isUnknownArea] at this
  · exact (claim_C6_unknown_area (fun _ => 0) {} {} Engine.exampleRand 0
      Engine.exampleInstitution Engine.exampleRequirements "XYZ").2.2.1 (by decide)
  · exact (claim_C6_unknown_area (fun _ => 0) {} {} Engine.exampleRand 0
      Engine.exampleInstitution Engine.exampleRequirements "QSS").2.2.2 (by decide) "QSS"

theorem count_true_eq_sum (l : List Bool) :
    ((l.count true : ℕ) : ℚ) = (l.map (fun b => if b then (1:ℚ) else 0)).sum := by
  induction l with
  | nil => simp
  | cons b t ih =>
    cases b <;> simp [List.count_cons, ih] <;> ring

/-! ## Claim C7 -/

/-- C7: the compliance score equals the number of passed checks among
the fixed battery of 10 boolean conditions (`complianceChecks`, one of
which is the overall validity flag of the validation result) divided by
10, and therefore always lies in [0, 1]. -/
theorem claim_C7_compliance_score (p : Enhanced.ProjectCreate)
    (v : Enhanced.ValidationResult) :
    Enhanced.calculateComplianceScore p v
      = ((Enhanced.complianceChecks p v).count true : ℚ) / 10
    ∧ 0 ≤ Enhanced.calculateComplianceScore p v
    ∧ Enhanced.calculateComplianceScore p v ≤ 1 := by
  have heq : Enhanced.calculateComplianceScore p v
      = ((Enhanced.complianceChecks p v).count true : ℚ) / 10 := by
    rw [count_true_eq_sum]
    simp only [Enhanced.calculateComplianceScore, Enhanced.complianceChecks,
      List.map_cons, List.map_nil, List.sum_cons, List.sum_nil, add_zero,
      decide_eq_true_eq]
    ring
  have hle : (Enhanced.complianceChecks p v).count true ≤ 10 := by
    calc (Enhanced.complianceChecks p v).count true
        ≤ (Enhanced.complianceChecks p v).length := List.count_le_length _ _
      _ = 10 := by simp [Enhanced.complianceChecks]
  refine ⟨heq, ?_, ?_⟩
  · rw [heq]
    positivity
  · rw [heq]
    rw [div_le_one (by norm_num)]
    exact_mod_cast hle

/-! ## Claim C8 -/

/-- C8: for every requested duration in [6, 48] months, both timeline
generators produce a non-empty phase list whose first phase starts at
month 1, whose phases are contiguous (each starts at the previous end
plus one) and non-overlapping, and whose months satisfy
`1 ≤ start ≤ end ≤ duration`. -/
theorem claim_C8_timeline (d : ℕ) (h1 : 6 ≤ d) (h2 : d ≤ 48) :
    phasesOk (d : ℤ) (enhancedTimelinePairs d) = true
    ∧ phasesOk (d : ℤ) (engineTimelinePairs (d : ℤ)) = true := by
  have key : ∀ n : ℕ, n < 49 → 6 ≤ n →
      (phasesOk (n : ℤ) (enhancedTimelinePairs n) = true
       ∧ phasesOk (n : ℤ) (engineTimelinePairs (n : ℤ)) = true) := by decide
  exact key d (by omega) h1

/-- C8, witness: the phase well-formedness at the default 24-month
duration. -/
theorem claim_C8_witness :
    phasesOk ((24 : ℕ) : ℤ) (enhancedTimelinePairs 24) = true
    ∧ phasesOk ((24 : ℕ) : ℤ) (engineTimelinePairs ((24 : ℕ) : ℤ)) = true :=
  claim_C8_timeline 24 (by norm_num) (by norm_num)

/-! ## Claim C9 -/

/-- C9: when the budget-item list is empty the compliance validator
appends neither the budget-sum-mismatch error nor the missing-audit
error, and when the team list is empty it appends no
missing-coordinator error; the error list reduces to the four
narrative/duration checks, so such a package is reported valid whenever
those checks pass. -/
theorem claim_C9_empty_lists (p : Enhanced.ProjectCreate)
    (hb : p.budget_items = []) (ht : p.team_members = []) :
    (Enhanced.validateProjectCompliance p).errors
      = (if p.justification.length < 500 then
           ["Justificativa deve ter pelo menos 500 caracteres"] else [])
        ++ (if p.specific_objectives.length < 3 then
              ["Mínimo de 3 objetivos específicos"] else [])
        ++ (if p.timeline_months < 6 then
              ["Cronograma deve ter pelo menos 6 meses"] else [])
        ++ (if 48 < p.timeline_months then
              ["Cronograma não pode exceder 48 meses"] else [])
    ∧ (500 ≤ p.justification.length → 3 ≤ p.specific_objectives.length →
        6 ≤ p.timeline_months → p.timeline_months ≤ 48 →
        (Enhanced.validateProjectCompliance p).is_valid = true) := by
  have herr : (Enhanced.validateProjectCompliance p).errors
      = (if p.justification.length < 500 then
           ["Justificativa deve ter pelo menos 500 caracteres"] else [])
        ++ (if p.specific_objectives.length < 3 then
              ["Mínimo de 3 objetivos específicos"] else [])
        ++ (if p.timeline_months < 6 then
              ["Cronograma deve ter pelo menos 6 meses"] else [])
        ++ (if 48 < p.timeline_months then
              ["Cronograma não pode exceder 48 meses"] else []) := by
    simp only [Enhanced.validateProjectCompliance, hb, ht, List.isEmpty_nil,
      Bool.not_true, Bool.false_eq_true, if_false, List.append_nil]
  refine ⟨herr, ?_⟩
  intro hj ho h6 h48
  have hnil : (Enhanced.validateProjectCompliance p).errors = [] := by
    rw [herr]
    rw [if_neg (by omega), if_neg (by omega), if_neg (by omega), if_neg (by omega)]
    rfl
  have hv : (Enhanced.validateProjectCompliance p).is_valid
      = (Enhanced.validateProjectCompliance p).errors.isEmpty := rfl
  rw [hv, hnil]
  rfl

set_option maxRecDepth 4000 in
/-- C9, witness: a concrete package with no budget items and no team
members whose remaining checks pass is reported valid. -/
theorem claim_C9_witness :
    (Enhanced.validateProjectCompliance Enhanced.exampleEmptyProject).is_valid = true :=
  (claim_C9_empty_lists Enhanced.exampleEmptyProject rfl rfl).2
    (by decide) (by decide) (by decide) (by decide)

/-! ## Claim C10 -/

/-- C10: the enhanced generation pipeline consults no random source —
running it under any two ambient random streams, with identical
institution data, requirements and area code, yields identical
responses (package, both scores, recommendations, validation results
and similar-project list). -/
theorem claim_C10_deterministic (rng1 rng2 : ℕ → ℚ)
    (inst : Enhanced.InstitutionData) (req : Enhanced.ProjectRequirements)
    (code : String) :
    Enhanced.generateProjectFromGuidelines rng1 inst req code
      = Enhanced.generateProjectFromGuidelines rng2 inst req code := rfl

/-- General shape of the enhanced budget sum: for each of the 8 area
codes the generated items total the requested budget plus the excess
that the fixed 240000 coordination line introduces whenever the
personnel share falls below it (zero for QSS, which has no personnel
category). -/
theorem enhanced_budget_sum_formula (code : String)
    (hcode : code ∈ Enhanced.priorityAreaCodes) (T : ℚ) :
    Enhanced.itemsTotal (Enhanced.generateProjectBudget (Enhanced.enhancedDist code) T)
      = T + Enhanced.pessoalExcess (Enhanced.enhancedDist code) T := by
  fin_cases hcode
  · unfold Enhanced.generateProjectBudget
    simp only [Enhanced.enhancedDist]
    rw [normalizeDistribution_of_audit _ (by decide)]
    rw [show Enhanced.pessoalExcess Enhanced.qssDist T = 0 from rfl]
    simp only [Enhanced.qssDist, List.map_cons, List.map_nil]
    rw [itemsTotal_flatten]
    simp only [List.map_cons, List.map_nil, List.sum_cons, List.sum_nil,
      itemsTotal_categoryItems_permanente, itemsTotal_categoryItems_administrativas,
      itemsTotal_categoryItems_auditoria]
    rw [itemsTotal_categoryItems_reformas _ _ (by norm_num)]
    ring
  · unfold Enhanced.generateProjectBudget
    simp only [Enhanced.enhancedDist]
    rw [normalizeDistribution_of_audit _ (by decide)]
    rw [show Enhanced.pessoalExcess Enhanced.rpdDist T = max 0 (240000 - T * (50/100)) from rfl]
    simp only [Enhanced.rpdDist, List.map_cons, List.map_nil]
    rw [itemsTotal_flatten]
    simp only [List.map_cons, List.map_nil, List.sum_cons, List.sum_nil,
      itemsTotal_categoryItems_pessoal, itemsTotal_categoryItems_consumo,
      itemsTotal_categoryItems_permanente, itemsTotal_categoryItems_administrativas,
      itemsTotal_categoryItems_auditoria]
    ring
  · unfold Enhanced.generateProjectBudget
    simp only [Enhanced.enhancedDist]
    rw [normalizeDistribution_of_audit _ (by decide)]
    rw [show Enhanced.pessoalExcess Enhanced.ddpDist T = max 0 (240000 - T * (45/100)) from rfl]
    simp only [Enhanced.ddpDist, List.map_cons, List.map_nil]
    rw [itemsTotal_flatten]
    simp only [List.map_cons, List.map_nil, List.sum_cons, List.sum_nil,
      itemsTotal_categoryItems_pessoal, itemsTotal_categoryItems_consumo,
      itemsTotal_categoryItems_permanente, itemsTotal_categoryItems_administrativas,
      itemsTotal_categoryItems_auditoria]
    ring
  · unfold Enhanced.generateProjectBudget
    simp only [Enhanced.enhancedDist]
    rw [normalizeDistribution_of_audit _ (by decide)]
    rw [show Enhanced.pessoalExcess Enhanced.epdDist T = max 0 (240000 - T * (55/100)) from rfl]
    simp only [Enhanced.epdDist, List.map_cons, List.map_nil]
    rw [itemsTotal_flatten]
    simp only [List.map_cons, List.map_nil, List.sum_cons, List.sum_nil,
      itemsTotal_categoryItems_pessoal, itemsTotal_categoryItems_consumo,
      itemsTotal_categoryItems_permanente, itemsTotal_categoryItems_administrativas,
      itemsTotal_categoryItems_auditoria]
    ring
  · unfold Enhanced.generateProjectBudget
    simp only [Enhanced.enhancedDist]
    rw [normalizeDistribution_of_audit _ (by decide)]
    rw [show Enhanced.pessoalExcess Enhanced.itrDist T = max 0 (240000 - T * (40/100)) from rfl]
    simp only [Enhanced.itrDist, List.map_cons, List.map_nil]
    rw [itemsTotal_flatten]
    simp only [List.map_cons, List.map_nil, List.sum_cons, List.sum_nil,
      itemsTotal_categoryItems_pessoal, itemsTotal_categoryItems_consumo,
      itemsTotal_categoryItems_permanente, itemsTotal_categoryItems_administrativas,
      itemsTotal_categoryItems_auditoria]
    ring
  · unfold Enhanced.generateProjectBudget
    simp only [Enhanced.enhancedDist]
    rw [normalizeDistribution_of_audit _ (by decide)]
    rw [show Enhanced.pessoalExcess Enhanced.apeDist T = max 0 (240000 - T * (35/100)) from rfl]
    simp only [Enhanced.apeDist, List.map_cons, List.map_nil]
    rw [itemsTotal_flatten]
    simp only [List.map_cons, List.map_nil, List.sum_cons, List.sum_nil,
      itemsTotal_categoryItems_pessoal, itemsTotal_categoryItems_consumo,
      itemsTotal_categoryItems_permanente, itemsTotal_categoryItems_administrativas,
      itemsTotal_categoryItems_auditoria]
    ring
  · unfold Enhanced.generateProjectBudget
    simp only [Enhanced.enhancedDist]
    rw [normalizeDistribution_of_audit _ (by decide)]
    rw [show Enhanced.pessoalExcess Enhanced.taaDist T = max 0 (240000 - T * (40/100)) from rfl]
    simp only [Enhanced.taaDist, List.map_cons, List.map_nil]
    rw [itemsTotal_flatten]
    simp only [List.map_cons, List.map_nil, List.sum_cons, List.sum_nil,
      itemsTotal_categoryItems_pessoal, itemsTotal_categoryItems_consumo,
      itemsTotal_categoryItems_permanente, itemsTotal_categoryItems_administrativas,
      itemsTotal_categoryItems_auditoria]
    ring
  · unfold Enhanced.generateProjectBudget
    simp only [Enhanced.enhancedDist]
    rw [normalizeDistribution_of_audit _ (by decide)]
    rw [show Enhanced.pessoalExcess Enhanced.apcDist T = max 0 (240000 - T * (40/100)) from rfl]
    simp only [Enhanced.apcDist, List.map_cons, List.map_nil]
    rw [itemsTotal_flatten]
    simp only [List.map_cons, List.map_nil, List.sum_cons, List.sum_nil,
      itemsTotal_categoryItems_pessoal, itemsTotal_categoryItems_consumo,
      itemsTotal_categoryItems_permanente, itemsTotal_categoryItems_administrativas,
      itemsTotal_categoryItems_auditoria]
    ring
